import Mathlib

/-!
Verification of the windowing and backbuffer core in src/win32/main.cc.
The C code is shallowly embedded: machine integers become Nat or Int with
explicit reductions modulo two to the width where overflow can matter, the
window state struct becomes a Lean structure, and each WndProc handler
becomes a pure function from the window state (plus an environment record
holding the values the handler reads from the operating system) to the new
window state.
-/

/-- Baseline DPI used by the conversion macros (USER_DEFAULT_SCREEN_DPI). -/
def USER_DEFAULT_SCREEN_DPI : Nat := 96

/-- Reduce a natural number modulo two to the sixteen, as a C uint16_t. -/
def u16 (n : Nat) : Nat := n % 65536

/-- Reduce a natural number modulo two to the thirty-two, as a C uint32_t. -/
def u32 (n : Nat) : Nat := n % 4294967296

/-- Reduce a natural number modulo two to the sixty-four, as a C size_t. -/
def u64 (n : Nat) : Nat := n % 18446744073709551616

/-- Convert a signed value to the C cast (uint32_t) of it. -/
def toU32 (i : Int) : Nat := (i % 4294967296).toNat

/-- Convert an unsigned value to the C cast (LONG), a 32-bit signed value. -/
def toI32 (n : Nat) : Int :=
  if u32 n < 2147483648 then (u32 n : Int) else (u32 n : Int) - 4294967296

/-- LOWORD: the low sixteen bits of a message parameter. -/
def wordLo (n : Nat) : Nat := n % 65536

/-- HIWORD: bits sixteen through thirty-one of a message parameter. -/
def wordHi (n : Nat) : Nat := n / 65536 % 65536

/-- WSI_WINDOW_STATUS_FLAG_CREATED from the WSI_WINDOW_STATUS_FLAGS enum. -/
def WSI_WINDOW_STATUS_FLAG_CREATED : Nat := 1

/-- WSI_WINDOW_STATUS_FLAG_ACTIVE from the WSI_WINDOW_STATUS_FLAGS enum. -/
def WSI_WINDOW_STATUS_FLAG_ACTIVE : Nat := 2

/-- WSI_WINDOW_STATUS_FLAG_VISIBLE from the WSI_WINDOW_STATUS_FLAGS enum. -/
def WSI_WINDOW_STATUS_FLAG_VISIBLE : Nat := 4

/-- WSI_WINDOW_STATUS_FLAG_FULLSCREEN from the WSI_WINDOW_STATUS_FLAGS enum. -/
def WSI_WINDOW_STATUS_FLAG_FULLSCREEN : Nat := 8

/-- WSI_WINDOW_EVENT_FLAG_CREATED from the WSI_WINDOW_EVENT_FLAGS enum. -/
def WSI_WINDOW_EVENT_FLAG_CREATED : Nat := 1

/-- WSI_WINDOW_EVENT_FLAG_DESTROYED from the WSI_WINDOW_EVENT_FLAGS enum. -/
def WSI_WINDOW_EVENT_FLAG_DESTROYED : Nat := 2

/-- WSI_WINDOW_EVENT_FLAG_SHOWN from the WSI_WINDOW_EVENT_FLAGS enum. -/
def WSI_WINDOW_EVENT_FLAG_SHOWN : Nat := 4

/-- WSI_WINDOW_EVENT_FLAG_HIDDEN from the WSI_WINDOW_EVENT_FLAGS enum. -/
def WSI_WINDOW_EVENT_FLAG_HIDDEN : Nat := 8

/-- WSI_WINDOW_EVENT_FLAG_ACTIVATED from the WSI_WINDOW_EVENT_FLAGS enum. -/
def WSI_WINDOW_EVENT_FLAG_ACTIVATED : Nat := 16

/-- WSI_WINDOW_EVENT_FLAG_DEACTIVATED from the WSI_WINDOW_EVENT_FLAGS enum. -/
def WSI_WINDOW_EVENT_FLAG_DEACTIVATED : Nat := 32

/-- WSI_WINDOW_EVENT_FLAG_SIZE_CHANGED from the WSI_WINDOW_EVENT_FLAGS enum. -/
def WSI_WINDOW_EVENT_FLAG_SIZE_CHANGED : Nat := 64

/-- WSI_WINDOW_EVENT_FLAG_POSITION_CHANGED from the WSI_WINDOW_EVENT_FLAGS enum. -/
def WSI_WINDOW_EVENT_FLAG_POSITION_CHANGED : Nat := 128

/-- The Win32 WS_POPUP window style bit. -/
def WS_POPUP : Nat := 2147483648

/-- The Win32 SC_KEYMENU system command code. -/
def SC_KEYMENU : Nat := 61696

/-- The Win32 VK_RETURN virtual key code. -/
def VK_RETURN : Nat := 13

/-- The Win32 SIZE_RESTORED visibility transition code in WM_SIZE. -/
def SIZE_RESTORED : Nat := 0

/-- The Win32 SIZE_MINIMIZED visibility transition code in WM_SIZE. -/
def SIZE_MINIMIZED : Nat := 1

/-- The Win32 SIZE_MAXHIDE visibility transition code in WM_SIZE. -/
def SIZE_MAXHIDE : Nat := 4

/-- The PhysicalToLogicalPixels macro: (dim * USER_DEFAULT_SCREEN_DPI) / dpi,
with the product computed in 32-bit unsigned arithmetic. -/
def PhysicalToLogicalPixels (dim dpi : Nat) : Nat :=
  u32 (dim * USER_DEFAULT_SCREEN_DPI) / dpi

/-- The LogicalToPhysicalPixels macro: (dim * dpi) / USER_DEFAULT_SCREEN_DPI,
with the product computed in 32-bit unsigned arithmetic. -/
def LogicalToPhysicalPixels (dim dpi : Nat) : Nat :=
  u32 (dim * dpi) / USER_DEFAULT_SCREEN_DPI

/-- The Win32 RECT structure, with LONG fields modelled as Int. -/
structure WinRect where
  left : Int
  top : Int
  right : Int
  bottom : Int
deriving DecidableEq

/-- The fields of BITMAPINFOHEADER written by ResizeBackBuffer. -/
structure BITMAPINFOHEADER where
  biSize : Nat
  biWidth : Int
  biHeight : Int
  biPlanes : Nat
  biBitCount : Nat
  biCompression : Nat
deriving DecidableEq

/-- The WSI_WINDOW_STATE structure from main.cc.  The Win32Handle and the
dispatch table are omitted; BackBufferMemory models the uint8_t pointer as
an optional base address, where none stands for the null pointer. -/
structure WSI_WINDOW_STATE where
  StatusFlags : Nat
  EventFlags : Nat
  OutputDpiX : Nat
  OutputDpiY : Nat
  PositionX : Int
  PositionY : Int
  WindowSizeX : Nat
  WindowSizeY : Nat
  ClientSizeX : Nat
  ClientSizeY : Nat
  RestoreRect : WinRect
  RestoreStyle : Nat
  RestoreStyleEx : Nat
  BackBufferMemory : Option Nat
  BackBufferWidth : Nat
  BackBufferHeight : Nat
  BackBufferStride : Nat
  BackBufferInfo : BITMAPINFOHEADER
deriving DecidableEq

/-- The part of the operating-system window object that the handlers read
and write through GetWindowLong, GetWindowRect, SetWindowLong, SetWindowPos
and ShowWindow: the style words, the outer rectangle and visibility. -/
structure OSWindow where
  style : Nat
  styleEx : Nat
  rect : WinRect
  shown : Bool
deriving DecidableEq

/-- The values a handler obtains from the operating system during one
message: the effective DPI of the hosting monitor (GetDpiForMonitor), the
client rectangle (GetClientRect), the monitor rectangle (QueryMonitorGeometry),
the decoration adjustment (AdjustWindowRectEx) and the outcome of
VirtualAlloc, given as a function from the requested byte count to the base
address of the committed memory, or none when the allocation fails. -/
structure WSI_Env where
  monitorDpiX : Nat
  monitorDpiY : Nat
  clientRect : WinRect
  monitorRect : WinRect
  adjustWindowRect : WinRect → Nat → Nat → WinRect
  alloc : Nat → Option Nat

/-- ResizeBackBuffer from main.cc.  Returns the int result code together
with the updated window state.  The header of BackBufferInfo is rewritten
before the allocation is attempted, exactly as in the source; the width,
height, stride and memory fields are only written after a successful
allocation. -/
def ResizeBackBuffer (alloc : Nat → Option Nat) (window : WSI_WINDOW_STATE)
    (physical_x_px physical_y_px : Nat) : Int × WSI_WINDOW_STATE :=
  let prev_x_px := window.BackBufferWidth
  let prev_y_px := window.BackBufferHeight
  let num_bytes := u64 (physical_x_px * physical_y_px * 4)
  if physical_x_px = prev_x_px ∧ physical_y_px = prev_y_px ∧
      window.BackBufferMemory ≠ none then
    (0, window)
  else
    let hdr : BITMAPINFOHEADER :=
      { biSize := 40, biWidth := toI32 physical_x_px,
        biHeight := -(toI32 physical_y_px), biPlanes := 1, biBitCount := 32,
        biCompression := 0 }
    let window1 := { window with BackBufferInfo := hdr }
    match alloc num_bytes with
    | none => (-1, window1)
    | some bmap_mem =>
      (0, { window1 with
            BackBufferMemory := some bmap_mem,
            BackBufferWidth := physical_x_px,
            BackBufferHeight := physical_y_px,
            BackBufferStride := u32 (physical_x_px * 4) })

/-- The rectangles passed to StretchDIBits by PresentBackBuffer. -/
structure BlitParams where
  dst_x : Int
  dst_y : Int
  dst_w : Nat
  dst_h : Nat
  src_x : Int
  src_y : Int
  src_w : Nat
  src_h : Nat
deriving DecidableEq

/-- PresentBackBuffer from main.cc, as the blit geometry it hands to
StretchDIBits. -/
def PresentBackBuffer (window : WSI_WINDOW_STATE) : BlitParams :=
  { dst_x := 0, dst_y := 0,
    dst_w := LogicalToPhysicalPixels window.ClientSizeX window.OutputDpiX,
    dst_h := LogicalToPhysicalPixels window.ClientSizeY window.OutputDpiY,
    src_x := 0, src_y := 0,
    src_w := window.BackBufferWidth,
    src_h := window.BackBufferHeight }

/-- The RTC_FRAMEBUFFER descriptor from include/display.h. -/
structure RTC_FRAMEBUFFER where
  Base : Nat
  Width : Nat
  Height : Nat
  Stride : Nat
deriving DecidableEq

/-- Modelled from the spec: rtcGetFrameBuffer is declared in
include/display.h but has no implementation in the repository sources.
Following section 4.6 of the specification, it returns the current
backbuffer descriptor, namely the base address, width, height and stride,
and fails exactly when no backbuffer has been allocated yet. -/
def rtcGetFrameBuffer (window : WSI_WINDOW_STATE) : Option RTC_FRAMEBUFFER :=
  match window.BackBufferMemory with
  | none => none
  | some base =>
    some { Base := base, Width := window.BackBufferWidth,
           Height := window.BackBufferHeight,
           Stride := window.BackBufferStride }

/-- WSI_WndProc_WM_CREATE from main.cc.  Resolves the monitor DPI, converts
the requested logical client size to physical pixels, adjusts the outer
rectangle for decoration and resizes the window (SetWindowPos is called with
SWP_NOMOVE, so only the size of the OS rectangle changes), overwrites the
status flags with Created and the event flags with Created, SizeChanged and
PositionChanged, stores the DPI and the logical window size, and resizes the
backbuffer to the physical client size. -/
def WSI_WndProc_WM_CREATE (env : WSI_Env) (window : WSI_WINDOW_STATE)
    (osw : OSWindow) : WSI_WINDOW_STATE × OSWindow :=
  let dpi_x := env.monitorDpiX
  let dpi_y := env.monitorDpiY
  let style := osw.style
  let ex_style := osw.styleEx
  let phys_x_px := LogicalToPhysicalPixels window.ClientSizeX dpi_x
  let phys_y_px := LogicalToPhysicalPixels window.ClientSizeY dpi_y
  let rc0 : WinRect :=
    { left := 0, top := 0, right := (phys_x_px : Int), bottom := (phys_y_px : Int) }
  let rc := env.adjustWindowRect rc0 style ex_style
  let osw1 := { osw with
    rect := { left := osw.rect.left, top := osw.rect.top,
              right := osw.rect.left + (rc.right - rc.left),
              bottom := osw.rect.top + (rc.bottom - rc.top) } }
  let window1 := { window with
    StatusFlags := WSI_WINDOW_STATUS_FLAG_CREATED,
    EventFlags := WSI_WINDOW_EVENT_FLAG_CREATED |||
      WSI_WINDOW_EVENT_FLAG_SIZE_CHANGED |||
      WSI_WINDOW_EVENT_FLAG_POSITION_CHANGED,
    OutputDpiX := dpi_x, OutputDpiY := dpi_y,
    WindowSizeX := PhysicalToLogicalPixels (toU32 (rc.right - rc.left)) dpi_x,
    WindowSizeY := PhysicalToLogicalPixels (toU32 (rc.bottom - rc.top)) dpi_y }
  ((ResizeBackBuffer env.alloc window1 phys_x_px phys_y_px).2, osw1)

/-- WSI_WndProc_WM_CLOSE from main.cc.  Hides the window, clears the status
flags and overwrites the event flags with exactly the Destroyed flag. -/
def WSI_WndProc_WM_CLOSE (window : WSI_WINDOW_STATE) (osw : OSWindow) :
    WSI_WINDOW_STATE × OSWindow :=
  ({ window with
     StatusFlags := 0,
     EventFlags := WSI_WINDOW_EVENT_FLAG_DESTROYED },
   { osw with shown := false })

/-- WSI_WndProc_WM_ACTIVATE from main.cc.  LOWORD of wparam tells whether
the window was activated, HIWORD whether it is minimized. -/
def WSI_WndProc_WM_ACTIVATE (window : WSI_WINDOW_STATE) (wparam : Nat) :
    WSI_WINDOW_STATE :=
  let active := wordLo wparam
  let minimized := wordHi wparam
  let window1 :=
    if active ≠ 0 then
      { window with
        StatusFlags := window.StatusFlags |||
          (WSI_WINDOW_STATUS_FLAG_ACTIVE ||| WSI_WINDOW_STATUS_FLAG_VISIBLE),
        EventFlags := window.EventFlags ||| WSI_WINDOW_EVENT_FLAG_ACTIVATED }
    else
      { window with
        StatusFlags := window.StatusFlags &&& 4294967293,
        EventFlags := window.EventFlags ||| WSI_WINDOW_EVENT_FLAG_DEACTIVATED }
  if minimized ≠ 0 then
    { window1 with
      StatusFlags := window1.StatusFlags &&& 4294967291,
      EventFlags := window1.EventFlags ||| WSI_WINDOW_EVENT_FLAG_HIDDEN }
  else window1

/-- WSI_WndProc_WM_DPICHANGED from main.cc.  LOWORD and HIWORD of wparam
carry the new DPI values and the suggested rectangle is the RECT behind
lparam.  In the decorated branch the window is moved and sized to the
suggested rectangle adjusted for decoration; in the borderless popup branch
the geometry is taken from the hosting monitor rectangle instead. -/
def WSI_WndProc_WM_DPICHANGED (env : WSI_Env) (window : WSI_WINDOW_STATE)
    (osw : OSWindow) (wparam : Nat) (suggested : WinRect) :
    WSI_WINDOW_STATE × OSWindow :=
  let dpi_x := wordLo wparam
  let dpi_y := wordHi wparam
  let style := osw.style
  let ex_style := osw.styleEx
  let phys_x_px := LogicalToPhysicalPixels window.ClientSizeX dpi_x
  let phys_y_px := LogicalToPhysicalPixels window.ClientSizeY dpi_y
  if style &&& WS_POPUP = 0 then
    let flags : Nat :=
      if suggested.left ≠ window.PositionX ∨ suggested.top ≠ window.PositionY
      then WSI_WINDOW_EVENT_FLAG_POSITION_CHANGED else 0
    let rc0 : WinRect :=
      { left := suggested.left, top := suggested.top,
        right := suggested.left + (phys_x_px : Int),
        bottom := suggested.top + (phys_y_px : Int) }
    let rc := env.adjustWindowRect rc0 style ex_style
    let osw1 := { osw with
      rect := { left := rc.left, top := rc.top,
                right := rc.left + (rc.right - rc.left),
                bottom := rc.top + (rc.bottom - rc.top) } }
    let window1 := { window with
      OutputDpiX := dpi_x, OutputDpiY := dpi_y,
      PositionX := rc.left, PositionY := rc.top,
      WindowSizeX := PhysicalToLogicalPixels (toU32 (rc.right - rc.left)) dpi_x,
      WindowSizeY := PhysicalToLogicalPixels (toU32 (rc.bottom - rc.top)) dpi_y,
      EventFlags := window.EventFlags |||
        (WSI_WINDOW_EVENT_FLAG_SIZE_CHANGED ||| flags) }
    ((ResizeBackBuffer env.alloc window1 phys_x_px phys_y_px).2, osw1)
  else
    let rc := env.monitorRect
    let window1 := { window with
      OutputDpiX := dpi_x, OutputDpiY := dpi_y,
      PositionX := rc.left, PositionY := rc.top,
      WindowSizeX := PhysicalToLogicalPixels (toU32 (rc.right - rc.left)) dpi_x,
      WindowSizeY := PhysicalToLogicalPixels (toU32 (rc.bottom - rc.top)) dpi_y,
      EventFlags := window.EventFlags ||| WSI_WINDOW_EVENT_FLAG_SIZE_CHANGED }
    ((ResizeBackBuffer env.alloc window1 phys_x_px phys_y_px).2, osw)

/-- WSI_WndProc_WM_MOVE from main.cc.  Re-resolves DPI, reads the window
rectangle, stores the position and logical window size, and marks the
PositionChanged event. -/
def WSI_WndProc_WM_MOVE (env : WSI_Env) (window : WSI_WINDOW_STATE)
    (osw : OSWindow) : WSI_WINDOW_STATE :=
  let rc := osw.rect
  let dpi_x := env.monitorDpiX
  let dpi_y := env.monitorDpiY
  { window with
    EventFlags := window.EventFlags ||| WSI_WINDOW_EVENT_FLAG_POSITION_CHANGED,
    PositionX := rc.left, PositionY := rc.top,
    WindowSizeX := PhysicalToLogicalPixels (toU32 (rc.right - rc.left)) dpi_x,
    WindowSizeY := PhysicalToLogicalPixels (toU32 (rc.bottom - rc.top)) dpi_y,
    OutputDpiX := dpi_x, OutputDpiY := dpi_y }

/-- WSI_WndProc_WM_SIZE from main.cc.  LOWORD and HIWORD of lparam carry
the new physical client dimensions and wparam the visibility transition
code.  When the window is not visible or the converted logical client size
is unchanged, only the status flags are written back; otherwise the
backbuffer is resized and position, sizes and DPI are updated and the
accumulated event flags are extended. -/
def WSI_WndProc_WM_SIZE (env : WSI_Env) (window : WSI_WINDOW_STATE)
    (osw : OSWindow) (wparam lparam : Nat) : WSI_WINDOW_STATE :=
  let phy_client_w := wordLo lparam
  let phy_client_h := wordHi lparam
  let dpi_x := env.monitorDpiX
  let dpi_y := env.monitorDpiY
  let log_client_w := PhysicalToLogicalPixels phy_client_w dpi_x
  let log_client_h := PhysicalToLogicalPixels phy_client_h dpi_y
  let vfs : Nat × Nat × Bool :=
    if wparam = SIZE_MINIMIZED ∨ wparam = SIZE_MAXHIDE then
      (WSI_WINDOW_EVENT_FLAG_SIZE_CHANGED ||| WSI_WINDOW_EVENT_FLAG_HIDDEN,
       window.StatusFlags &&& 4294967291, false)
    else if wparam = SIZE_RESTORED then
      (WSI_WINDOW_EVENT_FLAG_SIZE_CHANGED ||| WSI_WINDOW_EVENT_FLAG_SHOWN,
       window.StatusFlags ||| WSI_WINDOW_STATUS_FLAG_VISIBLE, true)
    else
      (WSI_WINDOW_EVENT_FLAG_SIZE_CHANGED,
       window.StatusFlags ||| WSI_WINDOW_STATUS_FLAG_VISIBLE, true)
  let flags := vfs.1
  let status := vfs.2.1
  let is_visible := vfs.2.2
  let did_size : Bool :=
    if log_client_w = window.ClientSizeX ∧ log_client_h = window.ClientSizeY
    then false else true
  if is_visible = false ∨ did_size = false then
    { window with StatusFlags := status }
  else
    let is_fullscreen : Bool :=
      if window.StatusFlags &&& WSI_WINDOW_STATUS_FLAG_FULLSCREEN ≠ 0
      then true else false
    let window1 := (ResizeBackBuffer env.alloc window phy_client_w phy_client_h).2
    let status1 := if is_fullscreen then status ||| 8 else status &&& 4294967287
    let rc := osw.rect
    { window1 with
      StatusFlags := status1,
      EventFlags := window1.EventFlags ||| flags,
      PositionX := rc.left, PositionY := rc.top,
      WindowSizeX := PhysicalToLogicalPixels (toU32 (rc.right - rc.left)) dpi_x,
      WindowSizeY := PhysicalToLogicalPixels (toU32 (rc.bottom - rc.top)) dpi_y,
      ClientSizeX := log_client_w, ClientSizeY := log_client_h,
      OutputDpiX := dpi_x, OutputDpiY := dpi_y }

/-- WSI_WndProc_WM_SHOWWINDOW from main.cc.  When the window is being
shown, geometry and DPI are re-resolved from the current window and client
rectangles and the backbuffer is resized to the physical client size; when
it is being hidden, the Visible and Active status flags are cleared and the
Hidden and Deactivated events are added. -/
def WSI_WndProc_WM_SHOWWINDOW (env : WSI_Env) (window : WSI_WINDOW_STATE)
    (osw : OSWindow) (wparam : Nat) : WSI_WINDOW_STATE :=
  if wparam ≠ 0 then
    let rc := osw.rect
    let dpi_x := env.monitorDpiX
    let dpi_y := env.monitorDpiY
    let window1 := { window with
      StatusFlags := window.StatusFlags ||| WSI_WINDOW_STATUS_FLAG_VISIBLE,
      EventFlags := window.EventFlags ||| WSI_WINDOW_EVENT_FLAG_SHOWN,
      PositionX := rc.left, PositionY := rc.top,
      WindowSizeX := PhysicalToLogicalPixels (toU32 (rc.right - rc.left)) dpi_x,
      WindowSizeY := PhysicalToLogicalPixels (toU32 (rc.bottom - rc.top)) dpi_y }
    let crc := env.clientRect
    let phys_x_px := toU32 (crc.right - crc.left)
    let phys_y_px := toU32 (crc.bottom - crc.top)
    let window2 := { window1 with
      ClientSizeX := PhysicalToLogicalPixels phys_x_px dpi_x,
      ClientSizeY := PhysicalToLogicalPixels phys_y_px dpi_y,
      OutputDpiX := dpi_x, OutputDpiY := dpi_y }
    (ResizeBackBuffer env.alloc window2 phys_x_px phys_y_px).2
  else
    { window with
      StatusFlags := window.StatusFlags &&& 4294967291 &&& 4294967293,
      EventFlags := window.EventFlags |||
        (WSI_WINDOW_EVENT_FLAG_HIDDEN ||| WSI_WINDOW_EVENT_FLAG_DEACTIVATED) }

/-- WSI_WndProc_WM_SYSCOMMAND from main.cc.  On Alt+Enter it toggles
between windowed and fullscreen mode: entering fullscreen snapshots the
window rectangle and both style words into the restore fields, switches the
OS window to the borderless popup style covering the monitor rectangle and
sets the Fullscreen status flag; leaving fullscreen writes the snapshot back
to the OS window and clears the flag. -/
def WSI_WndProc_WM_SYSCOMMAND (env : WSI_Env) (window : WSI_WINDOW_STATE)
    (osw : OSWindow) (wparam lparam : Nat) : WSI_WINDOW_STATE × OSWindow :=
  if wparam &&& 65520 = SC_KEYMENU ∧ lparam = VK_RETURN then
    if window.StatusFlags &&& WSI_WINDOW_STATUS_FLAG_FULLSCREEN ≠ 0 then
      let rc := window.RestoreRect
      let osw1 := { osw with
        style := window.RestoreStyle, styleEx := window.RestoreStyleEx,
        rect := { left := rc.left, top := rc.top,
                  right := rc.left + (rc.right - rc.left),
                  bottom := rc.top + (rc.bottom - rc.top) },
        shown := true }
      ({ window with StatusFlags := window.StatusFlags &&& 4294967287 }, osw1)
    else
      let window1 := { window with
        RestoreRect := osw.rect,
        RestoreStyle := osw.style, RestoreStyleEx := osw.styleEx }
      let rc := env.monitorRect
      let osw1 := { osw with
        style := WS_POPUP,
        rect := { left := rc.left, top := rc.top,
                  right := rc.left + (rc.right - rc.left),
                  bottom := rc.top + (rc.bottom - rc.top) },
        shown := true }
      ({ window1 with
         StatusFlags := window1.StatusFlags ||| WSI_WINDOW_STATUS_FLAG_FULLSCREEN },
       osw1)
  else (window, osw)

/-- The window-system notifications consumed by WSI_WndProc.  Messages that
carry packed parameters carry the raw wparam and lparam words; the
DPI-changed message carries the suggested RECT that lparam points at. -/
inductive WSI_Msg where
  | wmCreate : WSI_Msg
  | wmClose : WSI_Msg
  | wmActivate (wparam : Nat) : WSI_Msg
  | wmDpiChanged (wparam : Nat) (suggested : WinRect) : WSI_Msg
  | wmMove : WSI_Msg
  | wmSize (wparam lparam : Nat) : WSI_Msg
  | wmShowWindow (wparam : Nat) : WSI_Msg
  | wmSysCommand (wparam lparam : Nat) : WSI_Msg
  | wmPaint : WSI_Msg
  | wmOther : WSI_Msg

/-- The message switch of WSI_WndProc from main.cc.  WM_PAINT presents but
does not mutate the window state, and unrecognized messages go to the
default handler, so both leave the state unchanged. -/
def WSI_Dispatch (env : WSI_Env) (window : WSI_WINDOW_STATE) (osw : OSWindow) :
    WSI_Msg → WSI_WINDOW_STATE × OSWindow
  | WSI_Msg.wmCreate => WSI_WndProc_WM_CREATE env window osw
  | WSI_Msg.wmClose => WSI_WndProc_WM_CLOSE window osw
  | WSI_Msg.wmActivate wparam => (WSI_WndProc_WM_ACTIVATE window wparam, osw)
  | WSI_Msg.wmDpiChanged wparam suggested =>
      WSI_WndProc_WM_DPICHANGED env window osw wparam suggested
  | WSI_Msg.wmMove => (WSI_WndProc_WM_MOVE env window osw, osw)
  | WSI_Msg.wmSize wparam lparam =>
      (WSI_WndProc_WM_SIZE env window osw wparam lparam, osw)
  | WSI_Msg.wmShowWindow wparam =>
      (WSI_WndProc_WM_SHOWWINDOW env window osw wparam, osw)
  | WSI_Msg.wmSysCommand wparam lparam =>
      WSI_WndProc_WM_SYSCOMMAND env window osw wparam lparam
  | WSI_Msg.wmPaint => (window, osw)
  | WSI_Msg.wmOther => (window, osw)

/-- The inner PeekMessage loop of wWinMain: dispatch every pending
notification of the tick, in order, through WSI_WndProc. -/
def drainBatch (window : WSI_WINDOW_STATE) (osw : OSWindow) :
    List (WSI_Env × WSI_Msg) → WSI_WINDOW_STATE × OSWindow
  | [] => (window, osw)
  | em :: rest =>
    let p := WSI_Dispatch em.1 window osw em.2
    drainBatch p.1 p.2 rest

/-- The presentation loop of wWinMain, driven by the finite schedule of
message batches the window will receive, one batch per tick.  Each
iteration drains its batch, then breaks when the Destroyed event flag is
set, and otherwise presents the backbuffer exactly when the Visible status
flag is set and the backbuffer memory is non-null.  The result records, per
executed iteration, the drained window state and the present issued in that
iteration (if any), together with whether the loop broke out because
destruction was observed. -/
def runLoop (window : WSI_WINDOW_STATE) (osw : OSWindow) :
    List (List (WSI_Env × WSI_Msg)) →
    List (WSI_WINDOW_STATE × Option BlitParams) × Bool
  | [] => ([], false)
  | batch :: rest =>
    let s := drainBatch window osw batch
    if s.1.EventFlags &&& WSI_WINDOW_EVENT_FLAG_DESTROYED ≠ 0 then
      ([(s.1, none)], true)
    else
      let act : Option BlitParams :=
        if s.1.StatusFlags &&& WSI_WINDOW_STATUS_FLAG_VISIBLE ≠ 0 ∧
            s.1.BackBufferMemory ≠ none then
          some (PresentBackBuffer s.1)
        else none
      let r := runLoop s.1 s.2 rest
      ((s.1, act) :: r.1, r.2)

/-- The teardown phase of wWinMain after the presentation loop breaks:
DestroyWindow is called and the final notifications are drained through
WSI_WndProc before the process returns.  No code on this path releases the
backbuffer memory. -/
def WSI_MainTeardown (window : WSI_WINDOW_STATE) (osw : OSWindow)
    (finalBatch : List (WSI_Env × WSI_Msg)) : WSI_WINDOW_STATE × OSWindow :=
  drainBatch window osw finalBatch

/-- A zeroed BITMAPINFOHEADER, as produced by ZeroMemory in wWinMain. -/
def hdrZero : BITMAPINFOHEADER :=
  { biSize := 0, biWidth := 0, biHeight := 0, biPlanes := 0, biBitCount := 0,
    biCompression := 0 }

/-- A zeroed RECT. -/
def rectZero : WinRect := { left := 0, top := 0, right := 0, bottom := 0 }

/-- A sample window state owning a 10 by 10 backbuffer at base address 5,
used to instantiate proved theorems at concrete inputs. -/
def wsSample : WSI_WINDOW_STATE :=
  { StatusFlags := 5, EventFlags := 0, OutputDpiX := 96, OutputDpiY := 96,
    PositionX := 100, PositionY := 100, WindowSizeX := 10, WindowSizeY := 10,
    ClientSizeX := 10, ClientSizeY := 10, RestoreRect := rectZero,
    RestoreStyle := 0, RestoreStyleEx := 0, BackBufferMemory := some 5,
    BackBufferWidth := 10, BackBufferHeight := 10, BackBufferStride := 40,
    BackBufferInfo := hdrZero }


/-- The BITMAPINFOHEADER contents ResizeBackBuffer writes for a pending
resize to the given physical dimensions. -/
def hdrFor (x y : Nat) : BITMAPINFOHEADER :=
  { biSize := 40, biWidth := toI32 x, biHeight := -(toI32 y), biPlanes := 1,
    biBitCount := 32, biCompression := 0 }

/-- ResizeBackBuffer is a no-op returning success when the requested
dimensions equal the stored dimensions and a buffer exists. -/
theorem resize_noop (al : Nat → Option Nat) (ws : WSI_WINDOW_STATE) (x y : Nat)
    (h1 : x = ws.BackBufferWidth) (h2 : y = ws.BackBufferHeight)
    (h3 : ws.BackBufferMemory ≠ none) :
    ResizeBackBuffer al ws x y = (0, ws) := by
  simp only [ResizeBackBuffer]
  rw [if_pos ⟨h1, h2, h3⟩]

/-- When the no-op test fails and the allocation succeeds, ResizeBackBuffer
installs the new buffer and returns success. -/
theorem resize_success (al : Nat → Option Nat) (ws : WSI_WINDOW_STATE)
    (x y a : Nat) (h : al (u64 (x * y * 4)) = some a)
    (hne : ¬(x = ws.BackBufferWidth ∧ y = ws.BackBufferHeight ∧
      ws.BackBufferMemory ≠ none)) :
    ResizeBackBuffer al ws x y =
      (0, { ws with
            BackBufferInfo := hdrFor x y,
            BackBufferMemory := some a, BackBufferWidth := x,
            BackBufferHeight := y, BackBufferStride := u32 (x * 4) }) := by
  simp only [ResizeBackBuffer]
  rw [if_neg hne, h]
  rfl

/-- When the no-op test fails and the allocation fails, ResizeBackBuffer
returns -1 having only rewritten the BITMAPINFOHEADER. -/
theorem resize_fail (al : Nat → Option Nat) (ws : WSI_WINDOW_STATE) (x y : Nat)
    (h : al (u64 (x * y * 4)) = none)
    (hne : ¬(x = ws.BackBufferWidth ∧ y = ws.BackBufferHeight ∧
      ws.BackBufferMemory ≠ none)) :
    ResizeBackBuffer al ws x y = (-1, { ws with BackBufferInfo := hdrFor x y }) := by
  simp only [ResizeBackBuffer]
  rw [if_neg hne, h]
  rfl

/-- Claim C8: for positive logical dimension d and DPI p (with the product
representable in 32 bits, as it is for every real window dimension and DPI),
converting d to physical pixels and back yields a value that never exceeds d
and falls short of d by less than one plus 96 divided by p logical pixels,
the integer-truncation tolerance; in particular for every DPI of at least
the 96 baseline the round trip is exact up to one unit. -/
theorem c8_conversion_round_trip (d p : Nat) (hd : 0 < d) (hp : 0 < p)
    (hov : d * p < 4294967296) :
    PhysicalToLogicalPixels (LogicalToPhysicalPixels d p) p ≤ d
    ∧ p * (d - PhysicalToLogicalPixels (LogicalToPhysicalPixels d p) p) < p + 96
    ∧ (96 ≤ p → d - PhysicalToLogicalPixels (LogicalToPhysicalPixels d p) p ≤ 1) := by
  have hL : LogicalToPhysicalPixels d p = d * p / 96 := by
    unfold LogicalToPhysicalPixels u32 USER_DEFAULT_SCREEN_DPI
    rw [Nat.mod_eq_of_lt hov]
  have hq96 : d * p / 96 * 96 ≤ d * p := Nat.div_mul_le_self _ _
  have hP : PhysicalToLogicalPixels (d * p / 96) p = d * p / 96 * 96 / p := by
    unfold PhysicalToLogicalPixels u32 USER_DEFAULT_SCREEN_DPI
    rw [Nat.mod_eq_of_lt (lt_of_le_of_lt hq96 hov)]
  rw [hL, hP]
  have hrd : d * p / 96 * 96 / p ≤ d := by
    have h1 : d * p / 96 * 96 / p ≤ d * p / p := Nat.div_le_div_right hq96
    rwa [Nat.mul_div_cancel _ hp] at h1
  obtain ⟨e, he⟩ := Nat.le.dest hrd
  have hA := Nat.div_add_mod (d * p) 96
  have hB := Nat.div_add_mod (d * p / 96 * 96) p
  have hm1 : d * p % 96 < 96 := Nat.mod_lt _ (by norm_num)
  have hm2 : d * p / 96 * 96 % p < p := Nat.mod_lt _ hp
  have hd2 : d * p = d * p / 96 * 96 / p * p + e * p := by
    conv_lhs => rw [← he]
    ring
  have key : e * p < p + 96 := by nlinarith [hA, hB, hd2, hm1, hm2]
  have hsub : d - d * p / 96 * 96 / p = e := by omega
  refine ⟨hrd, ?_, ?_⟩
  · rw [hsub, mul_comm]; exact key
  · intro h96p
    rw [hsub]
    by_contra hcon
    push_neg at hcon
    have h2e : 2 * p ≤ e * p := Nat.mul_le_mul_right p hcon
    omega

/-- Claim C8 witness at d = 300, p = 144. -/
theorem c8_witness :
    PhysicalToLogicalPixels (LogicalToPhysicalPixels 300 144) 144 ≤ 300
    ∧ 144 * (300 - PhysicalToLogicalPixels (LogicalToPhysicalPixels 300 144) 144) < 144 + 96
    ∧ (96 ≤ 144 → 300 - PhysicalToLogicalPixels (LogicalToPhysicalPixels 300 144) 144 ≤ 1) :=
  c8_conversion_round_trip 300 144 (by decide) (by decide) (by decide)

/-- Claim C1: when the window owns a backbuffer and a resize call fails with
result -1 (the allocation returned null), the stored base address, width,
height and stride are all left at their pre-call values, and therefore a
framebuffer query after the failed call returns the same descriptor it
returned before the call. -/
theorem c1_failed_resize_preserves_buffer (alloc : Nat → Option Nat)
    (ws : WSI_WINDOW_STATE) (x y base : Nat)
    (hmem : ws.BackBufferMemory = some base)
    (hfail : (ResizeBackBuffer alloc ws x y).1 = -1) :
    (ResizeBackBuffer alloc ws x y).2.BackBufferMemory = some base
    ∧ (ResizeBackBuffer alloc ws x y).2.BackBufferWidth = ws.BackBufferWidth
    ∧ (ResizeBackBuffer alloc ws x y).2.BackBufferHeight = ws.BackBufferHeight
    ∧ (ResizeBackBuffer alloc ws x y).2.BackBufferStride = ws.BackBufferStride
    ∧ rtcGetFrameBuffer (ResizeBackBuffer alloc ws x y).2 = rtcGetFrameBuffer ws := by
  by_cases hc : x = ws.BackBufferWidth ∧ y = ws.BackBufferHeight ∧
      ws.BackBufferMemory ≠ none
  · rw [resize_noop alloc ws x y hc.1 hc.2.1 hc.2.2] at hfail
    simp at hfail
  · cases halloc : alloc (u64 (x * y * 4)) with
    | none =>
      rw [resize_fail alloc ws x y halloc hc] at hfail ⊢
      refine ⟨hmem, rfl, rfl, rfl, ?_⟩
      simp [rtcGetFrameBuffer, hmem]
    | some a =>
      rw [resize_success alloc ws x y a halloc hc] at hfail
      simp at hfail

/-- Claim C1 witness: a concrete window owning a 10 by 10 buffer at base 5,
resized to 20 by 20 with a failing allocator. -/
theorem c1_witness :
    (ResizeBackBuffer (fun _ => none) wsSample 20 20).2.BackBufferMemory = some 5
    ∧ (ResizeBackBuffer (fun _ => none) wsSample 20 20).2.BackBufferWidth
        = wsSample.BackBufferWidth
    ∧ (ResizeBackBuffer (fun _ => none) wsSample 20 20).2.BackBufferHeight
        = wsSample.BackBufferHeight
    ∧ (ResizeBackBuffer (fun _ => none) wsSample 20 20).2.BackBufferStride
        = wsSample.BackBufferStride
    ∧ rtcGetFrameBuffer (ResizeBackBuffer (fun _ => none) wsSample 20 20).2
        = rtcGetFrameBuffer wsSample :=
  c1_failed_resize_preserves_buffer (fun _ => none) wsSample 20 20 5
    (by decide) (by decide)

/-- Claim C2: a resize with an allocator that succeeds returns 0, and a
second resize to the same dimensions is a strict no-op for every allocator:
it returns 0 and the state is unchanged, so no second allocation happens.
In general a resize whose requested dimensions equal the stored dimensions
while a buffer exists returns 0 and leaves the state untouched. -/
theorem c2_resize_idempotent (ws : WSI_WINDOW_STATE) (x y a : Nat)
    (alloc2 : Nat → Option Nat) :
    (ResizeBackBuffer (fun _ => some a) ws x y).1 = 0
    ∧ ResizeBackBuffer alloc2 (ResizeBackBuffer (fun _ => some a) ws x y).2 x y
        = (0, (ResizeBackBuffer (fun _ => some a) ws x y).2)
    ∧ (ws.BackBufferWidth = x → ws.BackBufferHeight = y →
        ws.BackBufferMemory ≠ none → ResizeBackBuffer alloc2 ws x y = (0, ws)) := by
  by_cases hc : x = ws.BackBufferWidth ∧ y = ws.BackBufferHeight ∧
      ws.BackBufferMemory ≠ none
  · rw [resize_noop (fun _ => some a) ws x y hc.1 hc.2.1 hc.2.2]
    refine ⟨rfl, ?_, fun _ _ _ => resize_noop alloc2 ws x y hc.1 hc.2.1 hc.2.2⟩
    exact resize_noop alloc2 ws x y hc.1 hc.2.1 hc.2.2
  · rw [resize_success (fun _ => some a) ws x y a rfl hc]
    refine ⟨rfl, ?_, ?_⟩
    · exact resize_noop alloc2 _ x y rfl rfl (by simp)
    · intro h1 h2 h3
      exact absurd ⟨h1.symm, h2.symm, h3⟩ hc

/-- Claim C2 witness: concrete first resize of the sample window to 10 by
20, then a second resize to the same size under an always-failing
allocator, and the general no-op case. -/
theorem c2_witness :
    (ResizeBackBuffer (fun _ => some 7) wsSample 10 20).1 = 0
    ∧ ResizeBackBuffer (fun _ => none)
        (ResizeBackBuffer (fun _ => some 7) wsSample 10 20).2 10 20
        = (0, (ResizeBackBuffer (fun _ => some 7) wsSample 10 20).2)
    ∧ (wsSample.BackBufferWidth = 10 → wsSample.BackBufferHeight = 20 →
        wsSample.BackBufferMemory ≠ none →
        ResizeBackBuffer (fun _ => none) wsSample 10 20 = (0, wsSample)) :=
  c2_resize_idempotent wsSample 10 20 7 (fun _ => none)

/-- Testing a just-set flag bit with the same mask is non-zero. -/
theorem or_pow_and_pow_ne (S i : Nat) : (S ||| 2 ^ i) &&& 2 ^ i ≠ 0 := by
  rw [Nat.and_two_pow, Nat.testBit_lor, Nat.testBit_two_pow]
  simp

/-- A flag word whose AND with a single-bit mask is zero has that bit clear. -/
theorem and_pow_eq_zero_testBit (S i : Nat) (h : S &&& 2 ^ i = 0) :
    S.testBit i = false := by
  rw [Nat.and_two_pow] at h
  rcases hb : S.testBit i
  · rfl
  · rw [hb] at h
    simp at h

/-- Clearing a 32-bit flag bit leaves every other bit position unchanged. -/
theorem and_mask_testBit_ne (S i j : Nat) (hi : i < 32) (hj : j ≠ i)
    (hlt : S < 4294967296) :
    (S &&& ((2 ^ 32 - 1) ^^^ 2 ^ i)).testBit j = S.testBit j := by
  rw [Nat.testBit_land, Nat.testBit_xor, Nat.testBit_two_pow_sub_one,
    Nat.testBit_two_pow]
  by_cases hjw : j < 32
  · simp [hjw, Ne.symm hj]
  · have hS : S.testBit j = false :=
      Nat.testBit_eq_false_of_lt (lt_of_lt_of_le hlt
        (Nat.pow_le_pow_right (by norm_num : (0:Nat) < 2) (le_of_not_lt hjw)))
    simp [hjw, Ne.symm hj, hS]

/-- Clearing a 32-bit flag bit makes that bit position false. -/
theorem and_mask_testBit_self (S i : Nat) (hi : i < 32) :
    (S &&& ((2 ^ 32 - 1) ^^^ 2 ^ i)).testBit i = false := by
  rw [Nat.testBit_land, Nat.testBit_xor, Nat.testBit_two_pow_sub_one,
    Nat.testBit_two_pow]
  simp [hi]

/-- Setting a flag bit leaves every other bit position unchanged. -/
theorem or_pow_testBit_ne (S i j : Nat) (hj : j ≠ i) :
    (S ||| 2 ^ i).testBit j = S.testBit j := by
  rw [Nat.testBit_lor, Nat.testBit_two_pow]
  simp [Ne.symm hj]

/-- Setting a flag bit makes that bit position true. -/
theorem or_pow_testBit_self (S i : Nat) : (S ||| 2 ^ i).testBit i = true := by
  rw [Nat.testBit_lor, Nat.testBit_two_pow]
  simp

/-- Setting a clear 32-bit flag bit and then masking it off recovers the
original flag word. -/
theorem or_pow_and_mask (S i : Nat) (hi : i < 32) (hbit : S.testBit i = false)
    (hlt : S < 4294967296) :
    (S ||| 2 ^ i) &&& ((2 ^ 32 - 1) ^^^ 2 ^ i) = S := by
  apply Nat.eq_of_testBit_eq
  intro j
  rw [Nat.testBit_land, Nat.testBit_lor, Nat.testBit_xor,
    Nat.testBit_two_pow_sub_one, Nat.testBit_two_pow]
  by_cases hj : i = j
  · subst hj
    simp [hbit, hi]
  · by_cases hjw : j < 32
    · simp [hj, hjw]
    · have hS : S.testBit j = false :=
        Nat.testBit_eq_false_of_lt (lt_of_lt_of_le hlt
          (Nat.pow_le_pow_right (by norm_num : (0:Nat) < 2) (le_of_not_lt hjw)))
      simp [hj, hjw, hS]


/-- Reassembling a rectangle from its position and extent, as SetWindowPos
does, reproduces it exactly. -/
theorem winRect_reassemble (r : WinRect) :
    ({ left := r.left, top := r.top, right := r.left + (r.right - r.left),
       bottom := r.top + (r.bottom - r.top) } : WinRect) = r := by
  obtain ⟨l, t, ri, b⟩ := r
  show WinRect.mk l t (l + (ri - l)) (t + (b - t)) = WinRect.mk l t ri b
  rw [WinRect.mk.injEq]
  refine ⟨rfl, rfl, by omega, by omega⟩

/-- A sample OS window in the decorated overlapped style. -/
def oswSample : OSWindow :=
  { style := 13565952, styleEx := 0,
    rect := { left := 100, top := 100, right := 900, bottom := 700 },
    shown := true }

/-- A sample environment: a 96 DPI monitor of 1920 by 1080 physical pixels,
a decoration adjustment adding standard borders, and an allocator that
serves exactly one request of 1920000 bytes at base address 1. -/
def envSample : WSI_Env :=
  { monitorDpiX := 96, monitorDpiY := 96,
    clientRect := { left := 0, top := 0, right := 800, bottom := 600 },
    monitorRect := { left := 0, top := 0, right := 1920, bottom := 1080 },
    adjustWindowRect := fun r _ _ =>
      { r with
        left := r.left - 8, top := r.top - 31, right := r.right + 8,
        bottom := r.bottom + 8 },
    alloc := fun n => if n = 1920000 then some 1 else none }

/-- Claim C7: starting from windowed mode (Fullscreen status clear), the
Alt+Enter toggle snapshots the OS window rectangle, style and extended
style into the restore fields and sets the Fullscreen status flag, and a
second Alt+Enter toggle restores the OS window position, size, style and
extended style bit-for-bit and clears the Fullscreen status flag, leaving
the status flags exactly as before the first toggle. -/
theorem c7_fullscreen_round_trip (env1 env2 : WSI_Env) (ws : WSI_WINDOW_STATE)
    (osw : OSWindow)
    (hfs : ws.StatusFlags &&& WSI_WINDOW_STATUS_FLAG_FULLSCREEN = 0)
    (hlt : ws.StatusFlags < 4294967296) :
    (WSI_WndProc_WM_SYSCOMMAND env1 ws osw SC_KEYMENU VK_RETURN).1.RestoreRect
        = osw.rect
    ∧ (WSI_WndProc_WM_SYSCOMMAND env1 ws osw SC_KEYMENU VK_RETURN).1.RestoreStyle
        = osw.style
    ∧ (WSI_WndProc_WM_SYSCOMMAND env1 ws osw SC_KEYMENU VK_RETURN).1.RestoreStyleEx
        = osw.styleEx
    ∧ (WSI_WndProc_WM_SYSCOMMAND env1 ws osw SC_KEYMENU VK_RETURN).1.StatusFlags
        &&& WSI_WINDOW_STATUS_FLAG_FULLSCREEN ≠ 0
    ∧ (WSI_WndProc_WM_SYSCOMMAND env2
        (WSI_WndProc_WM_SYSCOMMAND env1 ws osw SC_KEYMENU VK_RETURN).1
        (WSI_WndProc_WM_SYSCOMMAND env1 ws osw SC_KEYMENU VK_RETURN).2
        SC_KEYMENU VK_RETURN).2.style = osw.style
    ∧ (WSI_WndProc_WM_SYSCOMMAND env2
        (WSI_WndProc_WM_SYSCOMMAND env1 ws osw SC_KEYMENU VK_RETURN).1
        (WSI_WndProc_WM_SYSCOMMAND env1 ws osw SC_KEYMENU VK_RETURN).2
        SC_KEYMENU VK_RETURN).2.styleEx = osw.styleEx
    ∧ (WSI_WndProc_WM_SYSCOMMAND env2
        (WSI_WndProc_WM_SYSCOMMAND env1 ws osw SC_KEYMENU VK_RETURN).1
        (WSI_WndProc_WM_SYSCOMMAND env1 ws osw SC_KEYMENU VK_RETURN).2
        SC_KEYMENU VK_RETURN).2.rect = osw.rect
    ∧ (WSI_WndProc_WM_SYSCOMMAND env2
        (WSI_WndProc_WM_SYSCOMMAND env1 ws osw SC_KEYMENU VK_RETURN).1
        (WSI_WndProc_WM_SYSCOMMAND env1 ws osw SC_KEYMENU VK_RETURN).2
        SC_KEYMENU VK_RETURN).1.StatusFlags = ws.StatusFlags := by
  have hpow : WSI_WINDOW_STATUS_FLAG_FULLSCREEN = 2 ^ 3 := by
    norm_num [WSI_WINDOW_STATUS_FLAG_FULLSCREEN]
  have hfs8 : ws.StatusFlags &&& 2 ^ 3 = 0 := by rw [← hpow]; exact hfs
  have hbit := and_pow_eq_zero_testBit ws.StatusFlags 3 hfs8
  have hcond : SC_KEYMENU &&& 65520 = SC_KEYMENU ∧ VK_RETURN = VK_RETURN := by
    decide
  have hns : ¬ws.StatusFlags &&& WSI_WINDOW_STATUS_FLAG_FULLSCREEN ≠ 0 :=
    not_not_intro hfs
  have ht1 : WSI_WndProc_WM_SYSCOMMAND env1 ws osw SC_KEYMENU VK_RETURN =
      ({ ws with
         RestoreRect := osw.rect, RestoreStyle := osw.style,
         RestoreStyleEx := osw.styleEx,
         StatusFlags := ws.StatusFlags ||| WSI_WINDOW_STATUS_FLAG_FULLSCREEN },
       { osw with
         style := WS_POPUP,
         rect := { left := env1.monitorRect.left, top := env1.monitorRect.top,
                   right := env1.monitorRect.left +
                     (env1.monitorRect.right - env1.monitorRect.left),
                   bottom := env1.monitorRect.top +
                     (env1.monitorRect.bottom - env1.monitorRect.top) },
         shown := true }) := by
    unfold WSI_WndProc_WM_SYSCOMMAND
    rw [if_pos hcond, if_neg hns]
  have hset : (ws.StatusFlags ||| WSI_WINDOW_STATUS_FLAG_FULLSCREEN) &&&
      WSI_WINDOW_STATUS_FLAG_FULLSCREEN ≠ 0 := by
    rw [hpow]; exact or_pow_and_pow_ne ws.StatusFlags 3
  have hclear : (ws.StatusFlags ||| WSI_WINDOW_STATUS_FLAG_FULLSCREEN) &&&
      4294967287 = ws.StatusFlags := by
    rw [hpow, (by decide : (4294967287:Nat) = (2 ^ 32 - 1) ^^^ 2 ^ 3)]
    exact or_pow_and_mask ws.StatusFlags 3 (by norm_num) hbit hlt
  rw [ht1]
  refine ⟨rfl, rfl, rfl, hset, ?_⟩
  have ht2 : WSI_WndProc_WM_SYSCOMMAND env2
      ({ ws with
         RestoreRect := osw.rect, RestoreStyle := osw.style,
         RestoreStyleEx := osw.styleEx,
         StatusFlags := ws.StatusFlags ||| WSI_WINDOW_STATUS_FLAG_FULLSCREEN })
      ({ osw with
         style := WS_POPUP,
         rect := { left := env1.monitorRect.left, top := env1.monitorRect.top,
                   right := env1.monitorRect.left +
                     (env1.monitorRect.right - env1.monitorRect.left),
                   bottom := env1.monitorRect.top +
                     (env1.monitorRect.bottom - env1.monitorRect.top) },
         shown := true }) SC_KEYMENU VK_RETURN =
      ({ ws with
         RestoreRect := osw.rect, RestoreStyle := osw.style,
         RestoreStyleEx := osw.styleEx,
         StatusFlags := (ws.StatusFlags ||| WSI_WINDOW_STATUS_FLAG_FULLSCREEN)
           &&& 4294967287 },
       { osw with
         style := osw.style, styleEx := osw.styleEx,
         rect := { left := osw.rect.left, top := osw.rect.top,
                   right := osw.rect.left + (osw.rect.right - osw.rect.left),
                   bottom := osw.rect.top + (osw.rect.bottom - osw.rect.top) },
         shown := true }) := by
    unfold WSI_WndProc_WM_SYSCOMMAND
    rw [if_pos hcond, if_pos hset]
  rw [ht2]
  refine ⟨rfl, rfl, ?_, hclear⟩
  exact winRect_reassemble osw.rect

/-- Claim C7 witness at the sample windowed state. -/
theorem c7_witness :
    (WSI_WndProc_WM_SYSCOMMAND envSample wsSample oswSample SC_KEYMENU VK_RETURN).1.RestoreRect
        = oswSample.rect
    ∧ (WSI_WndProc_WM_SYSCOMMAND envSample wsSample oswSample SC_KEYMENU VK_RETURN).1.RestoreStyle
        = oswSample.style
    ∧ (WSI_WndProc_WM_SYSCOMMAND envSample wsSample oswSample SC_KEYMENU VK_RETURN).1.RestoreStyleEx
        = oswSample.styleEx
    ∧ (WSI_WndProc_WM_SYSCOMMAND envSample wsSample oswSample SC_KEYMENU VK_RETURN).1.StatusFlags
        &&& WSI_WINDOW_STATUS_FLAG_FULLSCREEN ≠ 0
    ∧ (WSI_WndProc_WM_SYSCOMMAND envSample
        (WSI_WndProc_WM_SYSCOMMAND envSample wsSample oswSample SC_KEYMENU VK_RETURN).1
        (WSI_WndProc_WM_SYSCOMMAND envSample wsSample oswSample SC_KEYMENU VK_RETURN).2
        SC_KEYMENU VK_RETURN).2.style = oswSample.style
    ∧ (WSI_WndProc_WM_SYSCOMMAND envSample
        (WSI_WndProc_WM_SYSCOMMAND envSample wsSample oswSample SC_KEYMENU VK_RETURN).1
        (WSI_WndProc_WM_SYSCOMMAND envSample wsSample oswSample SC_KEYMENU VK_RETURN).2
        SC_KEYMENU VK_RETURN).2.styleEx = oswSample.styleEx
    ∧ (WSI_WndProc_WM_SYSCOMMAND envSample
        (WSI_WndProc_WM_SYSCOMMAND envSample wsSample oswSample SC_KEYMENU VK_RETURN).1
        (WSI_WndProc_WM_SYSCOMMAND envSample wsSample oswSample SC_KEYMENU VK_RETURN).2
        SC_KEYMENU VK_RETURN).2.rect = oswSample.rect
    ∧ (WSI_WndProc_WM_SYSCOMMAND envSample
        (WSI_WndProc_WM_SYSCOMMAND envSample wsSample oswSample SC_KEYMENU VK_RETURN).1
        (WSI_WndProc_WM_SYSCOMMAND envSample wsSample oswSample SC_KEYMENU VK_RETURN).2
        SC_KEYMENU VK_RETURN).1.StatusFlags = wsSample.StatusFlags :=
  c7_fullscreen_round_trip envSample envSample wsSample oswSample
    (by decide) (by decide)

/-- Claim C4 (amended): processing a close notification hides the window,
clears all status flags and overwrites the event flags with exactly the
Destroyed flag, discarding anything accumulated earlier; the presentation
loop then terminates at its next check without presenting.  The backbuffer
fields are untouched by the close handler and by the teardown drain: the
windowing code never releases the backbuffer memory, which stays owned by
the WindowState until the process exits. -/
theorem c4_close_clears_and_terminates (ws : WSI_WINDOW_STATE) (osw : OSWindow) :
    (WSI_WndProc_WM_CLOSE ws osw).1.StatusFlags = 0
    ∧ (WSI_WndProc_WM_CLOSE ws osw).1.EventFlags = WSI_WINDOW_EVENT_FLAG_DESTROYED
    ∧ (WSI_WndProc_WM_CLOSE ws osw).2.shown = false
    ∧ (WSI_WndProc_WM_CLOSE ws osw).1.BackBufferMemory = ws.BackBufferMemory
    ∧ (WSI_WndProc_WM_CLOSE ws osw).1.BackBufferWidth = ws.BackBufferWidth
    ∧ (WSI_WndProc_WM_CLOSE ws osw).1.BackBufferHeight = ws.BackBufferHeight
    ∧ (WSI_WndProc_WM_CLOSE ws osw).1.BackBufferStride = ws.BackBufferStride
    ∧ runLoop (WSI_WndProc_WM_CLOSE ws osw).1 (WSI_WndProc_WM_CLOSE ws osw).2 [[]]
        = ([((WSI_WndProc_WM_CLOSE ws osw).1, none)], true)
    ∧ (WSI_MainTeardown (WSI_WndProc_WM_CLOSE ws osw).1
        (WSI_WndProc_WM_CLOSE ws osw).2 []).1.BackBufferMemory
        = ws.BackBufferMemory := by
  refine ⟨rfl, rfl, rfl, rfl, rfl, rfl, rfl, ?_, rfl⟩
  have h2 : (WSI_WndProc_WM_CLOSE ws osw).1.EventFlags &&&
      WSI_WINDOW_EVENT_FLAG_DESTROYED ≠ 0 := by
    show (2:Nat) &&& 2 ≠ 0
    decide
  simp only [runLoop, drainBatch]
  rw [if_pos h2]

/-- Claim C4 counterexample to the release clause as stated: at a concrete
window owning the backbuffer at base address 5, after the close notification
is processed the presentation loop terminates at its next check, the final
teardown drain runs, and the WindowState still holds the backbuffer
allocation: the backbuffer memory is not released when the loop ends. -/
theorem c4_counterexample :
    (runLoop (WSI_WndProc_WM_CLOSE wsSample oswSample).1
        (WSI_WndProc_WM_CLOSE wsSample oswSample).2 [[]]).2 = true
    ∧ (WSI_MainTeardown (WSI_WndProc_WM_CLOSE wsSample oswSample).1
        (WSI_WndProc_WM_CLOSE wsSample oswSample).2 []).1.BackBufferMemory
        = some 5
    ∧ ¬(WSI_MainTeardown (WSI_WndProc_WM_CLOSE wsSample oswSample).1
        (WSI_WndProc_WM_CLOSE wsSample oswSample).2 []).1.BackBufferMemory
        = none := by
  refine ⟨rfl, rfl, by decide⟩

/-- ResizeBackBuffer never touches the window fields outside the backbuffer
descriptor: status, events, DPI, position, sizes and client sizes are
preserved by every outcome of the call. -/
theorem resize_preserves_core (al : Nat → Option Nat) (ws : WSI_WINDOW_STATE)
    (x y : Nat) :
    (ResizeBackBuffer al ws x y).2.StatusFlags = ws.StatusFlags
    ∧ (ResizeBackBuffer al ws x y).2.EventFlags = ws.EventFlags
    ∧ (ResizeBackBuffer al ws x y).2.OutputDpiX = ws.OutputDpiX
    ∧ (ResizeBackBuffer al ws x y).2.OutputDpiY = ws.OutputDpiY
    ∧ (ResizeBackBuffer al ws x y).2.PositionX = ws.PositionX
    ∧ (ResizeBackBuffer al ws x y).2.PositionY = ws.PositionY
    ∧ (ResizeBackBuffer al ws x y).2.WindowSizeX = ws.WindowSizeX
    ∧ (ResizeBackBuffer al ws x y).2.WindowSizeY = ws.WindowSizeY
    ∧ (ResizeBackBuffer al ws x y).2.ClientSizeX = ws.ClientSizeX
    ∧ (ResizeBackBuffer al ws x y).2.ClientSizeY = ws.ClientSizeY := by
  by_cases hc : x = ws.BackBufferWidth ∧ y = ws.BackBufferHeight ∧
      ws.BackBufferMemory ≠ none
  · rw [resize_noop al ws x y hc.1 hc.2.1 hc.2.2]
    exact ⟨rfl, rfl, rfl, rfl, rfl, rfl, rfl, rfl, rfl, rfl⟩
  · cases h : al (u64 (x * y * 4)) with
    | none =>
      rw [resize_fail al ws x y h hc]
      exact ⟨rfl, rfl, rfl, rfl, rfl, rfl, rfl, rfl, rfl, rfl⟩
    | some a =>
      rw [resize_success al ws x y a h hc]
      exact ⟨rfl, rfl, rfl, rfl, rfl, rfl, rfl, rfl, rfl, rfl⟩

/-- When the allocator answers the request, the backbuffer dimensions after
ResizeBackBuffer equal the requested ones and a buffer exists (whether the
call installed a new buffer or took the no-op path because the dimensions
already matched). -/
theorem resize_backbuffer_success (al : Nat → Option Nat)
    (ws : WSI_WINDOW_STATE) (x y a : Nat) (h : al (u64 (x * y * 4)) = some a) :
    (ResizeBackBuffer al ws x y).2.BackBufferWidth = x
    ∧ (ResizeBackBuffer al ws x y).2.BackBufferHeight = y
    ∧ (ResizeBackBuffer al ws x y).2.BackBufferMemory ≠ none := by
  by_cases hc : x = ws.BackBufferWidth ∧ y = ws.BackBufferHeight ∧
      ws.BackBufferMemory ≠ none
  · rw [resize_noop al ws x y hc.1 hc.2.1 hc.2.2]
    exact ⟨hc.1.symm, hc.2.1.symm, hc.2.2⟩
  · rw [resize_success al ws x y a h hc]
    refine ⟨rfl, rfl, ?_⟩
    simp

/-- When the allocator fails, the backbuffer descriptor fields are left at
their previous values by ResizeBackBuffer (also on the no-op path). -/
theorem resize_fail_preserves (al : Nat → Option Nat) (ws : WSI_WINDOW_STATE)
    (x y : Nat) (h : al (u64 (x * y * 4)) = none) :
    (ResizeBackBuffer al ws x y).2.BackBufferMemory = ws.BackBufferMemory
    ∧ (ResizeBackBuffer al ws x y).2.BackBufferWidth = ws.BackBufferWidth
    ∧ (ResizeBackBuffer al ws x y).2.BackBufferHeight = ws.BackBufferHeight
    ∧ (ResizeBackBuffer al ws x y).2.BackBufferStride = ws.BackBufferStride := by
  by_cases hc : x = ws.BackBufferWidth ∧ y = ws.BackBufferHeight ∧
      ws.BackBufferMemory ≠ none
  · rw [resize_noop al ws x y hc.1 hc.2.1 hc.2.2]
    exact ⟨rfl, rfl, rfl, rfl⟩
  · rw [resize_fail al ws x y h hc]
    exact ⟨rfl, rfl, rfl, rfl⟩

/-- A fresh install: when no buffer exists yet and the allocator answers,
ResizeBackBuffer records the returned base address, the requested
dimensions, and the stride of four bytes per pixel. -/
theorem resize_install_fresh (al : Nat → Option Nat) (ws : WSI_WINDOW_STATE)
    (x y a : Nat) (hm : ws.BackBufferMemory = none)
    (h : al (u64 (x * y * 4)) = some a) :
    (ResizeBackBuffer al ws x y).2.BackBufferMemory = some a
    ∧ (ResizeBackBuffer al ws x y).2.BackBufferWidth = x
    ∧ (ResizeBackBuffer al ws x y).2.BackBufferHeight = y
    ∧ (ResizeBackBuffer al ws x y).2.BackBufferStride = u32 (x * 4) := by
  have hc : ¬(x = ws.BackBufferWidth ∧ y = ws.BackBufferHeight ∧
      ws.BackBufferMemory ≠ none) := fun hp => hp.2.2 hm
  rw [resize_success al ws x y a h hc]
  exact ⟨rfl, rfl, rfl, rfl⟩

/-- The OS-suggested rectangle of the C5 scenario. -/
def rectSuggested : WinRect := { left := 100, top := 100, right := 500, bottom := 400 }

/-- A sample window whose logical client area is 200 by 150 at position
(50, 60), used for the DPI-change scenario. -/
def wsC5 : WSI_WINDOW_STATE :=
  { wsSample with
    ClientSizeX := 200, ClientSizeY := 150, PositionX := 50,
    PositionY := 60 }

/-- The C5 scenario environment: the allocator serves exactly the 480000
byte request of a 400 by 300 backbuffer at base address 2. -/
def envC5 : WSI_Env :=
  { envSample with alloc := fun n => if n = 480000 then some 2 else none }

/-- The suggested rectangle of a decorated DPI change, adjusted for
decoration: the handler resizes the suggested origin to the physical client
extent recomputed at the new DPI and passes it through AdjustWindowRectEx
(main.cc lines building rc from the suggested RECT). -/
def dpiAdjustedRect (env : WSI_Env) (ws : WSI_WINDOW_STATE) (osw : OSWindow)
    (wparam : Nat) (suggested : WinRect) : WinRect :=
  env.adjustWindowRect
    { left := suggested.left, top := suggested.top,
      right := suggested.left + (LogicalToPhysicalPixels ws.ClientSizeX (wordLo wparam) : Int),
      bottom := suggested.top + (LogicalToPhysicalPixels ws.ClientSizeY (wordHi wparam) : Int) }
    osw.style osw.styleEx

/-- Claim C5: for a window in the decorated (non-popup) style, the
DPI-changed handler recomputes the physical client size from the stored
logical client size at the new DPI carried in wparam, repositions and
resizes the OS window to the suggested rectangle adjusted for decoration,
stores the new DPI, the adjusted position and the logical window size, adds
the PositionChanged event exactly when the suggested position differs from
the stored position together with an unconditional SizeChanged event, and
resizes the backbuffer to the new physical client size. -/
theorem c5_dpichanged_decorated (env : WSI_Env) (ws : WSI_WINDOW_STATE)
    (osw : OSWindow) (wparam : Nat) (suggested : WinRect)
    (hstyle : osw.style &&& WS_POPUP = 0) :
    (WSI_WndProc_WM_DPICHANGED env ws osw wparam suggested).1.OutputDpiX = wordLo wparam
    ∧ (WSI_WndProc_WM_DPICHANGED env ws osw wparam suggested).1.OutputDpiY = wordHi wparam
    ∧ (WSI_WndProc_WM_DPICHANGED env ws osw wparam suggested).1.PositionX =
        (dpiAdjustedRect env ws osw wparam suggested).left
    ∧ (WSI_WndProc_WM_DPICHANGED env ws osw wparam suggested).1.PositionY =
        (dpiAdjustedRect env ws osw wparam suggested).top
    ∧ (WSI_WndProc_WM_DPICHANGED env ws osw wparam suggested).1.WindowSizeX =
        PhysicalToLogicalPixels (toU32 ((dpiAdjustedRect env ws osw wparam suggested).right -
          (dpiAdjustedRect env ws osw wparam suggested).left)) (wordLo wparam)
    ∧ (WSI_WndProc_WM_DPICHANGED env ws osw wparam suggested).1.WindowSizeY =
        PhysicalToLogicalPixels (toU32 ((dpiAdjustedRect env ws osw wparam suggested).bottom -
          (dpiAdjustedRect env ws osw wparam suggested).top)) (wordHi wparam)
    ∧ (WSI_WndProc_WM_DPICHANGED env ws osw wparam suggested).2.rect =
        dpiAdjustedRect env ws osw wparam suggested
    ∧ (WSI_WndProc_WM_DPICHANGED env ws osw wparam suggested).1.EventFlags =
        ws.EventFlags ||| (WSI_WINDOW_EVENT_FLAG_SIZE_CHANGED |||
          (if suggested.left ≠ ws.PositionX ∨ suggested.top ≠ ws.PositionY then
            WSI_WINDOW_EVENT_FLAG_POSITION_CHANGED else 0))
    ∧ (∀ a, env.alloc (u64 (LogicalToPhysicalPixels ws.ClientSizeX (wordLo wparam) *
          LogicalToPhysicalPixels ws.ClientSizeY (wordHi wparam) * 4)) = some a →
        (WSI_WndProc_WM_DPICHANGED env ws osw wparam suggested).1.BackBufferWidth =
          LogicalToPhysicalPixels ws.ClientSizeX (wordLo wparam)
        ∧ (WSI_WndProc_WM_DPICHANGED env ws osw wparam suggested).1.BackBufferHeight =
          LogicalToPhysicalPixels ws.ClientSizeY (wordHi wparam)
        ∧ (WSI_WndProc_WM_DPICHANGED env ws osw wparam suggested).1.BackBufferMemory ≠ none) := by
  have hmain : WSI_WndProc_WM_DPICHANGED env ws osw wparam suggested =
      ((ResizeBackBuffer env.alloc
        ({ ws with
           OutputDpiX := wordLo wparam, OutputDpiY := wordHi wparam,
           PositionX := (dpiAdjustedRect env ws osw wparam suggested).left,
           PositionY := (dpiAdjustedRect env ws osw wparam suggested).top,
           WindowSizeX := PhysicalToLogicalPixels
             (toU32 ((dpiAdjustedRect env ws osw wparam suggested).right -
               (dpiAdjustedRect env ws osw wparam suggested).left)) (wordLo wparam),
           WindowSizeY := PhysicalToLogicalPixels
             (toU32 ((dpiAdjustedRect env ws osw wparam suggested).bottom -
               (dpiAdjustedRect env ws osw wparam suggested).top)) (wordHi wparam),
           EventFlags := ws.EventFlags ||| (WSI_WINDOW_EVENT_FLAG_SIZE_CHANGED |||
             (if suggested.left ≠ ws.PositionX ∨ suggested.top ≠ ws.PositionY then
               WSI_WINDOW_EVENT_FLAG_POSITION_CHANGED else 0)) })
        (LogicalToPhysicalPixels ws.ClientSizeX (wordLo wparam))
        (LogicalToPhysicalPixels ws.ClientSizeY (wordHi wparam))).2,
       { osw with
         rect := { left := (dpiAdjustedRect env ws osw wparam suggested).left,
                   top := (dpiAdjustedRect env ws osw wparam suggested).top,
                   right := (dpiAdjustedRect env ws osw wparam suggested).left +
                     ((dpiAdjustedRect env ws osw wparam suggested).right -
                      (dpiAdjustedRect env ws osw wparam suggested).left),
                   bottom := (dpiAdjustedRect env ws osw wparam suggested).top +
                     ((dpiAdjustedRect env ws osw wparam suggested).bottom -
                      (dpiAdjustedRect env ws osw wparam suggested).top) } }) := by
    unfold WSI_WndProc_WM_DPICHANGED dpiAdjustedRect
    rw [if_pos hstyle]
  rw [hmain]
  refine ⟨(resize_preserves_core _ _ _ _).2.2.1.trans rfl,
    (resize_preserves_core _ _ _ _).2.2.2.1.trans rfl,
    (resize_preserves_core _ _ _ _).2.2.2.2.1.trans rfl,
    (resize_preserves_core _ _ _ _).2.2.2.2.2.1.trans rfl,
    (resize_preserves_core _ _ _ _).2.2.2.2.2.2.1.trans rfl,
    (resize_preserves_core _ _ _ _).2.2.2.2.2.2.2.1.trans rfl,
    winRect_reassemble _,
    (resize_preserves_core _ _ _ _).2.1.trans rfl,
    ?_⟩
  intro a ha
  exact resize_backbuffer_success env.alloc _ _ _ a ha

/-- Claim C5 witness, the scenario of the specification: DPI 192 in both
words of wparam, suggested rectangle (100,100)-(500,400), stored position
(50,60) and logical client size 200 by 150, decorated style.  The physical
client size becomes 400 by 300, the window moves to the adjusted origin
(92,69), both SizeChanged (64) and PositionChanged (128) are set, and the
backbuffer is resized to 400 by 300. -/
theorem c5_witness :
    (WSI_WndProc_WM_DPICHANGED envC5 wsC5 oswSample 12583104 rectSuggested).1.OutputDpiX = 192
    ∧ (WSI_WndProc_WM_DPICHANGED envC5 wsC5 oswSample 12583104 rectSuggested).1.OutputDpiY = 192
    ∧ (WSI_WndProc_WM_DPICHANGED envC5 wsC5 oswSample 12583104 rectSuggested).1.PositionX = 92
    ∧ (WSI_WndProc_WM_DPICHANGED envC5 wsC5 oswSample 12583104 rectSuggested).1.PositionY = 69
    ∧ (WSI_WndProc_WM_DPICHANGED envC5 wsC5 oswSample 12583104 rectSuggested).1.EventFlags = 192
    ∧ (WSI_WndProc_WM_DPICHANGED envC5 wsC5 oswSample 12583104 rectSuggested).1.BackBufferWidth = 400
    ∧ (WSI_WndProc_WM_DPICHANGED envC5 wsC5 oswSample 12583104 rectSuggested).1.BackBufferHeight = 300
    ∧ (WSI_WndProc_WM_DPICHANGED envC5 wsC5 oswSample 12583104 rectSuggested).1.BackBufferMemory ≠ none := by
  obtain ⟨h1, h2, h3, h4, _, _, _, h8, h9⟩ :=
    c5_dpichanged_decorated envC5 wsC5 oswSample 12583104 rectSuggested (by decide)
  obtain ⟨hw, hh, hm⟩ := h9 2 (by decide)
  exact ⟨h1.trans rfl, h2.trans rfl, h3.trans rfl, h4.trans rfl,
    h8.trans rfl, hw.trans rfl, hh.trans rfl, hm⟩

/-- The outer window rectangle computed by the create handler before
SetWindowPos: the physical client extent at the resolved DPI passed through
AdjustWindowRectEx. -/
def createAdjustedRect (env : WSI_Env) (ws : WSI_WINDOW_STATE)
    (osw : OSWindow) : WinRect :=
  env.adjustWindowRect
    { left := 0, top := 0,
      right := (LogicalToPhysicalPixels ws.ClientSizeX env.monitorDpiX : Int),
      bottom := (LogicalToPhysicalPixels ws.ClientSizeY env.monitorDpiY : Int) }
    osw.style osw.styleEx

/-- Claim C6: the create handler resolves the monitor DPI, converts the
requested logical client size to physical pixels at that DPI, adjusts the
outer window size for decoration (moving only the size of the OS rectangle,
not its position), sets the status flags to exactly Created, sets exactly
the Created, SizeChanged and PositionChanged events, stores the DPI and the
logical window size, leaves the requested logical client size in place, and
allocates the backbuffer at the resolved physical size, with a stride of
four bytes per pixel on a fresh allocation. -/
theorem c6_create (env : WSI_Env) (ws : WSI_WINDOW_STATE) (osw : OSWindow) :
    (WSI_WndProc_WM_CREATE env ws osw).1.StatusFlags = WSI_WINDOW_STATUS_FLAG_CREATED
    ∧ (WSI_WndProc_WM_CREATE env ws osw).1.EventFlags =
        WSI_WINDOW_EVENT_FLAG_CREATED ||| WSI_WINDOW_EVENT_FLAG_SIZE_CHANGED |||
        WSI_WINDOW_EVENT_FLAG_POSITION_CHANGED
    ∧ (WSI_WndProc_WM_CREATE env ws osw).1.OutputDpiX = env.monitorDpiX
    ∧ (WSI_WndProc_WM_CREATE env ws osw).1.OutputDpiY = env.monitorDpiY
    ∧ (WSI_WndProc_WM_CREATE env ws osw).1.WindowSizeX =
        PhysicalToLogicalPixels (toU32 ((createAdjustedRect env ws osw).right -
          (createAdjustedRect env ws osw).left)) env.monitorDpiX
    ∧ (WSI_WndProc_WM_CREATE env ws osw).1.WindowSizeY =
        PhysicalToLogicalPixels (toU32 ((createAdjustedRect env ws osw).bottom -
          (createAdjustedRect env ws osw).top)) env.monitorDpiY
    ∧ (WSI_WndProc_WM_CREATE env ws osw).1.ClientSizeX = ws.ClientSizeX
    ∧ (WSI_WndProc_WM_CREATE env ws osw).1.ClientSizeY = ws.ClientSizeY
    ∧ (WSI_WndProc_WM_CREATE env ws osw).2.rect.left = osw.rect.left
    ∧ (WSI_WndProc_WM_CREATE env ws osw).2.rect.top = osw.rect.top
    ∧ (WSI_WndProc_WM_CREATE env ws osw).2.rect.right -
        (WSI_WndProc_WM_CREATE env ws osw).2.rect.left =
        (createAdjustedRect env ws osw).right - (createAdjustedRect env ws osw).left
    ∧ (WSI_WndProc_WM_CREATE env ws osw).2.rect.bottom -
        (WSI_WndProc_WM_CREATE env ws osw).2.rect.top =
        (createAdjustedRect env ws osw).bottom - (createAdjustedRect env ws osw).top
    ∧ (∀ a, env.alloc (u64 (LogicalToPhysicalPixels ws.ClientSizeX env.monitorDpiX *
          LogicalToPhysicalPixels ws.ClientSizeY env.monitorDpiY * 4)) = some a →
        (WSI_WndProc_WM_CREATE env ws osw).1.BackBufferWidth =
          LogicalToPhysicalPixels ws.ClientSizeX env.monitorDpiX
        ∧ (WSI_WndProc_WM_CREATE env ws osw).1.BackBufferHeight =
          LogicalToPhysicalPixels ws.ClientSizeY env.monitorDpiY
        ∧ (WSI_WndProc_WM_CREATE env ws osw).1.BackBufferMemory ≠ none)
    ∧ (ws.BackBufferMemory = none →
        ∀ a, env.alloc (u64 (LogicalToPhysicalPixels ws.ClientSizeX env.monitorDpiX *
          LogicalToPhysicalPixels ws.ClientSizeY env.monitorDpiY * 4)) = some a →
        (WSI_WndProc_WM_CREATE env ws osw).1.BackBufferMemory = some a
        ∧ (WSI_WndProc_WM_CREATE env ws osw).1.BackBufferStride =
          u32 (LogicalToPhysicalPixels ws.ClientSizeX env.monitorDpiX * 4)) := by
  have hmain : WSI_WndProc_WM_CREATE env ws osw =
      ((ResizeBackBuffer env.alloc
        ({ ws with
           StatusFlags := WSI_WINDOW_STATUS_FLAG_CREATED,
           EventFlags := WSI_WINDOW_EVENT_FLAG_CREATED |||
             WSI_WINDOW_EVENT_FLAG_SIZE_CHANGED |||
             WSI_WINDOW_EVENT_FLAG_POSITION_CHANGED,
           OutputDpiX := env.monitorDpiX, OutputDpiY := env.monitorDpiY,
           WindowSizeX := PhysicalToLogicalPixels
             (toU32 ((createAdjustedRect env ws osw).right -
               (createAdjustedRect env ws osw).left)) env.monitorDpiX,
           WindowSizeY := PhysicalToLogicalPixels
             (toU32 ((createAdjustedRect env ws osw).bottom -
               (createAdjustedRect env ws osw).top)) env.monitorDpiY })
        (LogicalToPhysicalPixels ws.ClientSizeX env.monitorDpiX)
        (LogicalToPhysicalPixels ws.ClientSizeY env.monitorDpiY)).2,
       { osw with
         rect := { left := osw.rect.left, top := osw.rect.top,
                   right := osw.rect.left + ((createAdjustedRect env ws osw).right -
                     (createAdjustedRect env ws osw).left),
                   bottom := osw.rect.top + ((createAdjustedRect env ws osw).bottom -
                     (createAdjustedRect env ws osw).top) } }) := by
    unfold WSI_WndProc_WM_CREATE createAdjustedRect
    rfl
  rw [hmain]
  refine ⟨(resize_preserves_core _ _ _ _).1.trans rfl,
    (resize_preserves_core _ _ _ _).2.1.trans rfl,
    (resize_preserves_core _ _ _ _).2.2.1.trans rfl,
    (resize_preserves_core _ _ _ _).2.2.2.1.trans rfl,
    (resize_preserves_core _ _ _ _).2.2.2.2.2.2.1.trans rfl,
    (resize_preserves_core _ _ _ _).2.2.2.2.2.2.2.1.trans rfl,
    (resize_preserves_core _ _ _ _).2.2.2.2.2.2.2.2.1.trans rfl,
    (resize_preserves_core _ _ _ _).2.2.2.2.2.2.2.2.2.trans rfl,
    rfl, rfl, ?_, ?_, ?_, ?_⟩
  · show (osw.rect.left + ((createAdjustedRect env ws osw).right -
        (createAdjustedRect env ws osw).left)) - osw.rect.left =
      (createAdjustedRect env ws osw).right - (createAdjustedRect env ws osw).left
    omega
  · show (osw.rect.top + ((createAdjustedRect env ws osw).bottom -
        (createAdjustedRect env ws osw).top)) - osw.rect.top =
      (createAdjustedRect env ws osw).bottom - (createAdjustedRect env ws osw).top
    omega
  · intro a ha
    exact resize_backbuffer_success env.alloc _ _ _ a ha
  · intro hm a ha
    exact ⟨(resize_install_fresh env.alloc _ _ _ a (by exact hm) ha).1,
      (resize_install_fresh env.alloc _ _ _ a (by exact hm) ha).2.2.2⟩

/-- The initial window state of the creation scenario: logical client size
800 by 600 requested at 96 DPI, no backbuffer allocated yet, as set up by
wWinMain before CreateWindowEx. -/
def ws800 : WSI_WINDOW_STATE :=
  { StatusFlags := 0, EventFlags := 0, OutputDpiX := 96, OutputDpiY := 96,
    PositionX := 560, PositionY := 240, WindowSizeX := 800, WindowSizeY := 600,
    ClientSizeX := 800, ClientSizeY := 600, RestoreRect := rectZero,
    RestoreStyle := 13565952, RestoreStyleEx := 0, BackBufferMemory := none,
    BackBufferWidth := 0, BackBufferHeight := 0, BackBufferStride := 0,
    BackBufferInfo := hdrZero }

/-- Claim C6 witness, the scenario of the specification: creating a window
requesting 800 by 600 logical at 96 DPI yields status Created (1), events
Created+SizeChanged+PositionChanged (193), a physical client size of 800 by
600, and a backbuffer of 800 by 600 pixels whose byte count is 1920000
(served by the sample allocator only at exactly that size) with stride
3200. -/
theorem c6_witness :
    (WSI_WndProc_WM_CREATE envSample ws800 oswSample).1.StatusFlags = 1
    ∧ (WSI_WndProc_WM_CREATE envSample ws800 oswSample).1.EventFlags = 193
    ∧ (WSI_WndProc_WM_CREATE envSample ws800 oswSample).1.BackBufferWidth = 800
    ∧ (WSI_WndProc_WM_CREATE envSample ws800 oswSample).1.BackBufferHeight = 600
    ∧ (WSI_WndProc_WM_CREATE envSample ws800 oswSample).1.BackBufferStride = 3200
    ∧ (WSI_WndProc_WM_CREATE envSample ws800 oswSample).1.BackBufferMemory = some 1 := by
  obtain ⟨h1, h2, _, _, _, _, _, _, _, _, _, _, h13, h14⟩ :=
    c6_create envSample ws800 oswSample
  obtain ⟨hw, hh, _⟩ := h13 1 (by decide)
  obtain ⟨hmem, hstr⟩ := h14 rfl 1 (by decide)
  exact ⟨h1.trans rfl, h2.trans rfl, hw.trans rfl, hh.trans rfl,
    hstr.trans rfl, hmem⟩

/-- Claim C9: a size notification whose transition code is minimized (or
MAXHIDE), or whose converted logical client size equals the stored logical
client size, takes the early-return path: the event flags are untouched (in
particular SizeChanged is not added), position, window and client sizes,
DPI and every backbuffer field including the header are unchanged, no
resize is attempted, and the status flags change at most in the Visible
bit, which is cleared on the minimized codes and set otherwise. -/
theorem c9_size_visibility_only (env : WSI_Env) (ws : WSI_WINDOW_STATE)
    (osw : OSWindow) (wparam lparam : Nat)
    (hlt : ws.StatusFlags < 4294967296)
    (hcase : wparam = SIZE_MINIMIZED ∨ wparam = SIZE_MAXHIDE ∨
      (PhysicalToLogicalPixels (wordLo lparam) env.monitorDpiX = ws.ClientSizeX ∧
       PhysicalToLogicalPixels (wordHi lparam) env.monitorDpiY = ws.ClientSizeY)) :
    (WSI_WndProc_WM_SIZE env ws osw wparam lparam).EventFlags = ws.EventFlags
    ∧ (WSI_WndProc_WM_SIZE env ws osw wparam lparam).PositionX = ws.PositionX
    ∧ (WSI_WndProc_WM_SIZE env ws osw wparam lparam).PositionY = ws.PositionY
    ∧ (WSI_WndProc_WM_SIZE env ws osw wparam lparam).WindowSizeX = ws.WindowSizeX
    ∧ (WSI_WndProc_WM_SIZE env ws osw wparam lparam).WindowSizeY = ws.WindowSizeY
    ∧ (WSI_WndProc_WM_SIZE env ws osw wparam lparam).ClientSizeX = ws.ClientSizeX
    ∧ (WSI_WndProc_WM_SIZE env ws osw wparam lparam).ClientSizeY = ws.ClientSizeY
    ∧ (WSI_WndProc_WM_SIZE env ws osw wparam lparam).OutputDpiX = ws.OutputDpiX
    ∧ (WSI_WndProc_WM_SIZE env ws osw wparam lparam).OutputDpiY = ws.OutputDpiY
    ∧ (WSI_WndProc_WM_SIZE env ws osw wparam lparam).BackBufferMemory = ws.BackBufferMemory
    ∧ (WSI_WndProc_WM_SIZE env ws osw wparam lparam).BackBufferWidth = ws.BackBufferWidth
    ∧ (WSI_WndProc_WM_SIZE env ws osw wparam lparam).BackBufferHeight = ws.BackBufferHeight
    ∧ (WSI_WndProc_WM_SIZE env ws osw wparam lparam).BackBufferStride = ws.BackBufferStride
    ∧ (WSI_WndProc_WM_SIZE env ws osw wparam lparam).BackBufferInfo = ws.BackBufferInfo
    ∧ (∀ j, j ≠ 2 → (WSI_WndProc_WM_SIZE env ws osw wparam lparam).StatusFlags.testBit j
        = ws.StatusFlags.testBit j)
    ∧ ((wparam = SIZE_MINIMIZED ∨ wparam = SIZE_MAXHIDE) →
        (WSI_WndProc_WM_SIZE env ws osw wparam lparam).StatusFlags.testBit 2 = false)
    ∧ (¬(wparam = SIZE_MINIMIZED ∨ wparam = SIZE_MAXHIDE) →
        (WSI_WndProc_WM_SIZE env ws osw wparam lparam).StatusFlags.testBit 2 = true) := by
  by_cases hw14 : wparam = SIZE_MINIMIZED ∨ wparam = SIZE_MAXHIDE
  · have hm : WSI_WndProc_WM_SIZE env ws osw wparam lparam =
        { ws with StatusFlags := ws.StatusFlags &&& 4294967291 } := by
      unfold WSI_WndProc_WM_SIZE
      rw [if_pos hw14]
      rfl
    rw [hm]
    refine ⟨rfl, rfl, rfl, rfl, rfl, rfl, rfl, rfl, rfl, rfl, rfl, rfl, rfl, rfl,
      ?_, ?_, ?_⟩
    · intro j hj
      show (ws.StatusFlags &&& 4294967291).testBit j = ws.StatusFlags.testBit j
      rw [(by decide : (4294967291:Nat) = (2 ^ 32 - 1) ^^^ 2 ^ 2)]
      exact and_mask_testBit_ne ws.StatusFlags 2 j (by norm_num) hj hlt
    · intro _
      show (ws.StatusFlags &&& 4294967291).testBit 2 = false
      rw [(by decide : (4294967291:Nat) = (2 ^ 32 - 1) ^^^ 2 ^ 2)]
      exact and_mask_testBit_self ws.StatusFlags 2 (by norm_num)
    · intro hcon
      exact (hcon hw14).elim
  · have hsz : PhysicalToLogicalPixels (wordLo lparam) env.monitorDpiX = ws.ClientSizeX ∧
        PhysicalToLogicalPixels (wordHi lparam) env.monitorDpiY = ws.ClientSizeY := by
      rcases hcase with h | h | h
      · exact (hw14 (Or.inl h)).elim
      · exact (hw14 (Or.inr h)).elim
      · exact h
    have hm : WSI_WndProc_WM_SIZE env ws osw wparam lparam =
        { ws with StatusFlags := ws.StatusFlags ||| WSI_WINDOW_STATUS_FLAG_VISIBLE } := by
      by_cases h0 : wparam = SIZE_RESTORED
      · simp only [WSI_WndProc_WM_SIZE]
        rw [if_neg hw14, if_pos h0, if_pos hsz]
        rfl
      · simp only [WSI_WndProc_WM_SIZE]
        rw [if_neg hw14, if_neg h0, if_pos hsz]
        rfl
    rw [hm]
    refine ⟨rfl, rfl, rfl, rfl, rfl, rfl, rfl, rfl, rfl, rfl, rfl, rfl, rfl, rfl,
      ?_, ?_, ?_⟩
    · intro j hj
      show (ws.StatusFlags ||| WSI_WINDOW_STATUS_FLAG_VISIBLE).testBit j
        = ws.StatusFlags.testBit j
      rw [(by norm_num [WSI_WINDOW_STATUS_FLAG_VISIBLE] :
        WSI_WINDOW_STATUS_FLAG_VISIBLE = 2 ^ 2)]
      exact or_pow_testBit_ne ws.StatusFlags 2 j hj
    · intro hcon
      exact (hw14 hcon).elim
    · intro _
      show (ws.StatusFlags ||| WSI_WINDOW_STATUS_FLAG_VISIBLE).testBit 2 = true
      rw [(by norm_num [WSI_WINDOW_STATUS_FLAG_VISIBLE] :
        WSI_WINDOW_STATUS_FLAG_VISIBLE = 2 ^ 2)]
      exact or_pow_testBit_self ws.StatusFlags 2

/-- Claim C9 witness: a minimized size notification carrying dimensions
123 by 456 at the visible sample window leaves everything except the
Visible status bit unchanged and clears that bit. -/
theorem c9_witness :
    (WSI_WndProc_WM_SIZE envSample wsSample oswSample 1 29884539).EventFlags
        = wsSample.EventFlags
    ∧ (WSI_WndProc_WM_SIZE envSample wsSample oswSample 1 29884539).PositionX
        = wsSample.PositionX
    ∧ (WSI_WndProc_WM_SIZE envSample wsSample oswSample 1 29884539).PositionY
        = wsSample.PositionY
    ∧ (WSI_WndProc_WM_SIZE envSample wsSample oswSample 1 29884539).WindowSizeX
        = wsSample.WindowSizeX
    ∧ (WSI_WndProc_WM_SIZE envSample wsSample oswSample 1 29884539).WindowSizeY
        = wsSample.WindowSizeY
    ∧ (WSI_WndProc_WM_SIZE envSample wsSample oswSample 1 29884539).ClientSizeX
        = wsSample.ClientSizeX
    ∧ (WSI_WndProc_WM_SIZE envSample wsSample oswSample 1 29884539).ClientSizeY
        = wsSample.ClientSizeY
    ∧ (WSI_WndProc_WM_SIZE envSample wsSample oswSample 1 29884539).OutputDpiX
        = wsSample.OutputDpiX
    ∧ (WSI_WndProc_WM_SIZE envSample wsSample oswSample 1 29884539).OutputDpiY
        = wsSample.OutputDpiY
    ∧ (WSI_WndProc_WM_SIZE envSample wsSample oswSample 1 29884539).BackBufferMemory
        = wsSample.BackBufferMemory
    ∧ (WSI_WndProc_WM_SIZE envSample wsSample oswSample 1 29884539).BackBufferWidth
        = wsSample.BackBufferWidth
    ∧ (WSI_WndProc_WM_SIZE envSample wsSample oswSample 1 29884539).BackBufferHeight
        = wsSample.BackBufferHeight
    ∧ (WSI_WndProc_WM_SIZE envSample wsSample oswSample 1 29884539).BackBufferStride
        = wsSample.BackBufferStride
    ∧ (WSI_WndProc_WM_SIZE envSample wsSample oswSample 1 29884539).BackBufferInfo
        = wsSample.BackBufferInfo
    ∧ (∀ j, j ≠ 2 → (WSI_WndProc_WM_SIZE envSample wsSample oswSample 1 29884539).StatusFlags.testBit j
        = wsSample.StatusFlags.testBit j)
    ∧ (((1:Nat) = SIZE_MINIMIZED ∨ (1:Nat) = SIZE_MAXHIDE) →
        (WSI_WndProc_WM_SIZE envSample wsSample oswSample 1 29884539).StatusFlags.testBit 2 = false)
    ∧ (¬((1:Nat) = SIZE_MINIMIZED ∨ (1:Nat) = SIZE_MAXHIDE) →
        (WSI_WndProc_WM_SIZE envSample wsSample oswSample 1 29884539).StatusFlags.testBit 2 = true) :=
  c9_size_visibility_only envSample wsSample oswSample 1 29884539
    (by decide) (Or.inl rfl)

/-- Claim C10: a size notification processed on the visible path (the
transition code is neither minimized nor MAXHIDE) whose converted logical
client size differs from the stored one always updates the stored logical
client size, window size, position and DPI and adds the SizeChanged event
(plus Shown on the restored code), no matter what ResizeBackBuffer
returned: the result code is discarded.  When the allocation fails the
backbuffer fields keep their old values, so the stored client size and the
backbuffer dimensions diverge. -/
theorem c10_size_discards_resize_code (env : WSI_Env) (ws : WSI_WINDOW_STATE)
    (osw : OSWindow) (wparam lparam : Nat)
    (hw14 : ¬(wparam = SIZE_MINIMIZED ∨ wparam = SIZE_MAXHIDE))
    (hsz : ¬(PhysicalToLogicalPixels (wordLo lparam) env.monitorDpiX = ws.ClientSizeX ∧
       PhysicalToLogicalPixels (wordHi lparam) env.monitorDpiY = ws.ClientSizeY)) :
    (WSI_WndProc_WM_SIZE env ws osw wparam lparam).ClientSizeX =
        PhysicalToLogicalPixels (wordLo lparam) env.monitorDpiX
    ∧ (WSI_WndProc_WM_SIZE env ws osw wparam lparam).ClientSizeY =
        PhysicalToLogicalPixels (wordHi lparam) env.monitorDpiY
    ∧ (WSI_WndProc_WM_SIZE env ws osw wparam lparam).PositionX = osw.rect.left
    ∧ (WSI_WndProc_WM_SIZE env ws osw wparam lparam).PositionY = osw.rect.top
    ∧ (WSI_WndProc_WM_SIZE env ws osw wparam lparam).WindowSizeX =
        PhysicalToLogicalPixels (toU32 (osw.rect.right - osw.rect.left)) env.monitorDpiX
    ∧ (WSI_WndProc_WM_SIZE env ws osw wparam lparam).WindowSizeY =
        PhysicalToLogicalPixels (toU32 (osw.rect.bottom - osw.rect.top)) env.monitorDpiY
    ∧ (WSI_WndProc_WM_SIZE env ws osw wparam lparam).OutputDpiX = env.monitorDpiX
    ∧ (WSI_WndProc_WM_SIZE env ws osw wparam lparam).OutputDpiY = env.monitorDpiY
    ∧ (WSI_WndProc_WM_SIZE env ws osw wparam lparam).EventFlags =
        ws.EventFlags ||| (if wparam = SIZE_RESTORED then
          WSI_WINDOW_EVENT_FLAG_SIZE_CHANGED ||| WSI_WINDOW_EVENT_FLAG_SHOWN
          else WSI_WINDOW_EVENT_FLAG_SIZE_CHANGED)
    ∧ (env.alloc (u64 (wordLo lparam * wordHi lparam * 4)) = none →
        (WSI_WndProc_WM_SIZE env ws osw wparam lparam).BackBufferMemory = ws.BackBufferMemory
        ∧ (WSI_WndProc_WM_SIZE env ws osw wparam lparam).BackBufferWidth = ws.BackBufferWidth
        ∧ (WSI_WndProc_WM_SIZE env ws osw wparam lparam).BackBufferHeight = ws.BackBufferHeight
        ∧ (WSI_WndProc_WM_SIZE env ws osw wparam lparam).BackBufferStride = ws.BackBufferStride) := by
  by_cases h0 : wparam = SIZE_RESTORED
  · have hm : WSI_WndProc_WM_SIZE env ws osw wparam lparam =
        { (ResizeBackBuffer env.alloc ws (wordLo lparam) (wordHi lparam)).2 with
          StatusFlags := if (if ws.StatusFlags &&& WSI_WINDOW_STATUS_FLAG_FULLSCREEN ≠ 0
              then true else false) = true
            then (ws.StatusFlags ||| WSI_WINDOW_STATUS_FLAG_VISIBLE) ||| 8
            else (ws.StatusFlags ||| WSI_WINDOW_STATUS_FLAG_VISIBLE) &&& 4294967287,
          EventFlags := (ResizeBackBuffer env.alloc ws (wordLo lparam) (wordHi lparam)).2.EventFlags
            ||| (WSI_WINDOW_EVENT_FLAG_SIZE_CHANGED ||| WSI_WINDOW_EVENT_FLAG_SHOWN),
          PositionX := osw.rect.left, PositionY := osw.rect.top,
          WindowSizeX := PhysicalToLogicalPixels (toU32 (osw.rect.right - osw.rect.left)) env.monitorDpiX,
          WindowSizeY := PhysicalToLogicalPixels (toU32 (osw.rect.bottom - osw.rect.top)) env.monitorDpiY,
          ClientSizeX := PhysicalToLogicalPixels (wordLo lparam) env.monitorDpiX,
          ClientSizeY := PhysicalToLogicalPixels (wordHi lparam) env.monitorDpiY,
          OutputDpiX := env.monitorDpiX, OutputDpiY := env.monitorDpiY } := by
      simp only [WSI_WndProc_WM_SIZE]
      rw [if_neg hw14, if_pos h0, if_neg hsz]
      rfl
    rw [hm]
    refine ⟨rfl, rfl, rfl, rfl, rfl, rfl, rfl, rfl, ?_, ?_⟩
    · rw [if_pos h0,
        (resize_preserves_core env.alloc ws (wordLo lparam) (wordHi lparam)).2.1]
    · intro hnone
      exact ⟨(resize_fail_preserves env.alloc ws _ _ hnone).1,
        (resize_fail_preserves env.alloc ws _ _ hnone).2.1,
        (resize_fail_preserves env.alloc ws _ _ hnone).2.2.1,
        (resize_fail_preserves env.alloc ws _ _ hnone).2.2.2⟩
  · have hm : WSI_WndProc_WM_SIZE env ws osw wparam lparam =
        { (ResizeBackBuffer env.alloc ws (wordLo lparam) (wordHi lparam)).2 with
          StatusFlags := if (if ws.StatusFlags &&& WSI_WINDOW_STATUS_FLAG_FULLSCREEN ≠ 0
              then true else false) = true
            then (ws.StatusFlags ||| WSI_WINDOW_STATUS_FLAG_VISIBLE) ||| 8
            else (ws.StatusFlags ||| WSI_WINDOW_STATUS_FLAG_VISIBLE) &&& 4294967287,
          EventFlags := (ResizeBackBuffer env.alloc ws (wordLo lparam) (wordHi lparam)).2.EventFlags
            ||| WSI_WINDOW_EVENT_FLAG_SIZE_CHANGED,
          PositionX := osw.rect.left, PositionY := osw.rect.top,
          WindowSizeX := PhysicalToLogicalPixels (toU32 (osw.rect.right - osw.rect.left)) env.monitorDpiX,
          WindowSizeY := PhysicalToLogicalPixels (toU32 (osw.rect.bottom - osw.rect.top)) env.monitorDpiY,
          ClientSizeX := PhysicalToLogicalPixels (wordLo lparam) env.monitorDpiX,
          ClientSizeY := PhysicalToLogicalPixels (wordHi lparam) env.monitorDpiY,
          OutputDpiX := env.monitorDpiX, OutputDpiY := env.monitorDpiY } := by
      simp only [WSI_WndProc_WM_SIZE]
      rw [if_neg hw14, if_neg h0, if_neg hsz]
      rfl
    rw [hm]
    refine ⟨rfl, rfl, rfl, rfl, rfl, rfl, rfl, rfl, ?_, ?_⟩
    · rw [if_neg h0,
        (resize_preserves_core env.alloc ws (wordLo lparam) (wordHi lparam)).2.1]
    · intro hnone
      exact ⟨(resize_fail_preserves env.alloc ws _ _ hnone).1,
        (resize_fail_preserves env.alloc ws _ _ hnone).2.1,
        (resize_fail_preserves env.alloc ws _ _ hnone).2.2.1,
        (resize_fail_preserves env.alloc ws _ _ hnone).2.2.2⟩

/-- An environment whose allocator always fails. -/
def envNoAlloc : WSI_Env := { envSample with alloc := fun _ => none }

/-- Claim C10 witness: a restored-size notification carrying 400 by 300
physical pixels at the sample window (which stores a 10 by 10 client and a
10 by 10 backbuffer) under an always-failing allocator: the stored client
size becomes 400 by 300 and SizeChanged (with Shown, 68) is recorded, while
the backbuffer stays 10 by 10 at base 5 — the stored sizes diverge. -/
theorem c10_witness :
    (WSI_WndProc_WM_SIZE envNoAlloc wsSample oswSample 0 19661200).ClientSizeX = 400
    ∧ (WSI_WndProc_WM_SIZE envNoAlloc wsSample oswSample 0 19661200).ClientSizeY = 300
    ∧ (WSI_WndProc_WM_SIZE envNoAlloc wsSample oswSample 0 19661200).EventFlags = 68
    ∧ (WSI_WndProc_WM_SIZE envNoAlloc wsSample oswSample 0 19661200).BackBufferMemory = some 5
    ∧ (WSI_WndProc_WM_SIZE envNoAlloc wsSample oswSample 0 19661200).BackBufferWidth = 10
    ∧ (WSI_WndProc_WM_SIZE envNoAlloc wsSample oswSample 0 19661200).BackBufferHeight = 10
    ∧ (WSI_WndProc_WM_SIZE envNoAlloc wsSample oswSample 0 19661200).BackBufferStride = 40 := by
  obtain ⟨hcx, hcy, _, _, _, _, _, _, he, hb⟩ :=
    c10_size_discards_resize_code envNoAlloc wsSample oswSample 0 19661200
      (by decide) (by decide)
  obtain ⟨hm, hw, hh, hs⟩ := hb rfl
  exact ⟨hcx.trans rfl, hcy.trans rfl, he.trans rfl, hm.trans rfl,
    hw.trans rfl, hh.trans rfl, hs.trans rfl⟩

/-- With no batches scheduled, the loop records nothing and has not
observed destruction. -/
theorem runLoop_nil (ws : WSI_WINDOW_STATE) (osw : OSWindow) :
    runLoop ws osw [] = ([], false) := rfl

/-- Unfolding one loop iteration that observes the Destroyed event flag
after its drain: the loop records the drained state without presenting and
terminates. -/
theorem runLoop_cons_destroyed (ws : WSI_WINDOW_STATE) (osw : OSWindow)
    (batch : List (WSI_Env × WSI_Msg)) (rest : List (List (WSI_Env × WSI_Msg)))
    (h : (drainBatch ws osw batch).1.EventFlags &&&
      WSI_WINDOW_EVENT_FLAG_DESTROYED ≠ 0) :
    runLoop ws osw (batch :: rest) = ([((drainBatch ws osw batch).1, none)], true) := by
  simp only [runLoop]
  rw [if_pos h]

/-- Unfolding one loop iteration that does not observe destruction: the
loop presents exactly when the window is Visible and a backbuffer exists,
then continues with the remaining batches. -/
theorem runLoop_cons_alive (ws : WSI_WINDOW_STATE) (osw : OSWindow)
    (batch : List (WSI_Env × WSI_Msg)) (rest : List (List (WSI_Env × WSI_Msg)))
    (h : ¬(drainBatch ws osw batch).1.EventFlags &&&
      WSI_WINDOW_EVENT_FLAG_DESTROYED ≠ 0) :
    runLoop ws osw (batch :: rest) =
      (((drainBatch ws osw batch).1,
        if (drainBatch ws osw batch).1.StatusFlags &&&
            WSI_WINDOW_STATUS_FLAG_VISIBLE ≠ 0 ∧
            (drainBatch ws osw batch).1.BackBufferMemory ≠ none then
          some (PresentBackBuffer (drainBatch ws osw batch).1)
        else none) ::
        (runLoop (drainBatch ws osw batch).1 (drainBatch ws osw batch).2 rest).1,
       (runLoop (drainBatch ws osw batch).1 (drainBatch ws osw batch).2 rest).2) := by
  simp only [runLoop]
  rw [if_neg h]

/-- Claim C3: over any schedule of message batches, the presentation loop
terminates exactly when some iteration has observed the Destroyed event
flag after its drain; an iteration presents if and only if destruction has
not been observed, the Visible status flag is set and a backbuffer exists;
every present uses the logical client size converted to physical pixels at
the stored DPI as the destination extent and the backbuffer dimensions as
the source extent; and an iteration that observes destruction never
presents and is the last iteration executed. -/
theorem c3_presentation_loop (ws : WSI_WINDOW_STATE) (osw : OSWindow)
    (batches : List (List (WSI_Env × WSI_Msg))) :
    ((runLoop ws osw batches).2 = true ↔
      ∃ p ∈ (runLoop ws osw batches).1,
        p.1.EventFlags &&& WSI_WINDOW_EVENT_FLAG_DESTROYED ≠ 0)
    ∧ (∀ p ∈ (runLoop ws osw batches).1,
        (p.2 ≠ none ↔
          (p.1.EventFlags &&& WSI_WINDOW_EVENT_FLAG_DESTROYED = 0 ∧
           p.1.StatusFlags &&& WSI_WINDOW_STATUS_FLAG_VISIBLE ≠ 0 ∧
           p.1.BackBufferMemory ≠ none))
        ∧ (∀ bp, p.2 = some bp →
            bp.dst_w = LogicalToPhysicalPixels p.1.ClientSizeX p.1.OutputDpiX ∧
            bp.dst_h = LogicalToPhysicalPixels p.1.ClientSizeY p.1.OutputDpiY ∧
            bp.src_w = p.1.BackBufferWidth ∧ bp.src_h = p.1.BackBufferHeight))
    ∧ (∀ l1 p l2, (runLoop ws osw batches).1 = l1 ++ p :: l2 →
        p.1.EventFlags &&& WSI_WINDOW_EVENT_FLAG_DESTROYED ≠ 0 →
        p.2 = none ∧ l2 = []) := by
  induction batches generalizing ws osw with
  | nil =>
    refine ⟨?_, ?_, ?_⟩
    · simp [runLoop_nil]
    · intro p hp
      rw [runLoop_nil] at hp
      exact absurd hp (List.not_mem_nil p)
    · intro l1 p l2 h
      exfalso
      rw [runLoop_nil] at h
      cases l1 <;> simp at h
  | cons batch rest ih =>
    by_cases hdes : (drainBatch ws osw batch).1.EventFlags &&&
        WSI_WINDOW_EVENT_FLAG_DESTROYED ≠ 0
    · rw [runLoop_cons_destroyed ws osw batch rest hdes]
      refine ⟨?_, ?_, ?_⟩
      · constructor
        · intro _
          exact ⟨((drainBatch ws osw batch).1, none), List.mem_singleton.mpr rfl, hdes⟩
        · intro _
          rfl
      · intro p hp
        rw [List.mem_singleton] at hp
        subst hp
        refine ⟨?_, ?_⟩
        · constructor
          · intro hne
            exact absurd rfl hne
          · intro hc
            exact absurd hc.1 hdes
        · intro bp hbp
          exact absurd hbp (by simp)
      · intro l1 p l2 h hP
        cases l1 with
        | nil =>
          rw [List.nil_append] at h
          injection h with h1 h2
          subst h1
          exact ⟨rfl, h2.symm⟩
        | cons a t =>
          rw [List.cons_append] at h
          injection h with h1 h2
          exfalso
          cases t <;> simp at h2
    · rw [runLoop_cons_alive ws osw batch rest hdes]
      have hdes0 : (drainBatch ws osw batch).1.EventFlags &&&
          WSI_WINDOW_EVENT_FLAG_DESTROYED = 0 := not_ne_iff.mp hdes
      obtain ⟨ih1, ih2, ih3⟩ := ih (drainBatch ws osw batch).1 (drainBatch ws osw batch).2
      refine ⟨?_, ?_, ?_⟩
      · constructor
        · intro ht
          obtain ⟨p, hp, hP⟩ := ih1.mp ht
          exact ⟨p, List.mem_cons_of_mem _ hp, hP⟩
        · rintro ⟨p, hp, hP⟩
          rcases List.mem_cons.mp hp with heq | hp'
          · subst heq
            exact absurd hdes0 hP
          · exact ih1.mpr ⟨p, hp', hP⟩
      · intro p hp
        rcases List.mem_cons.mp hp with heq | hp'
        · subst heq
          by_cases hvis : (drainBatch ws osw batch).1.StatusFlags &&&
              WSI_WINDOW_STATUS_FLAG_VISIBLE ≠ 0 ∧
              (drainBatch ws osw batch).1.BackBufferMemory ≠ none
          · refine ⟨?_, ?_⟩
            · constructor
              · intro _
                exact ⟨hdes0, hvis.1, hvis.2⟩
              · intro _
                rw [if_pos hvis]
                simp
            · intro bp hbp
              rw [if_pos hvis] at hbp
              have hbp2 : some (PresentBackBuffer (drainBatch ws osw batch).1) = some bp := hbp
              injection hbp2 with hbp3
              subst hbp3
              exact ⟨rfl, rfl, rfl, rfl⟩
          · refine ⟨?_, ?_⟩
            · constructor
              · intro hne
                rw [if_neg hvis] at hne
                exact absurd rfl hne
              · rintro ⟨_, h2, h3⟩
                exact absurd ⟨h2, h3⟩ hvis
            · intro bp hbp
              rw [if_neg hvis] at hbp
              exact absurd hbp (by simp)
        · exact ih2 p hp'
      · intro l1 p l2 h hP
        cases l1 with
        | nil =>
          rw [List.nil_append] at h
          injection h with h1 h2
          subst h1
          exact absurd hdes0 hP
        | cons a t =>
          rw [List.cons_append] at h
          injection h with h1 h2
          exact ih3 t p l2 h2 hP

/-- Claim C3 witness: one concrete tick at the visible sample window (a
10 by 10 backbuffer at 96 DPI) with no pending notifications.  The loop
records a present whose geometry is the DPI-scaled client size against the
backbuffer extent. -/
theorem c3_witness :
    (((wsSample, some (PresentBackBuffer wsSample)) :
        WSI_WINDOW_STATE × Option BlitParams).2 ≠ none ↔
      (wsSample.EventFlags &&& WSI_WINDOW_EVENT_FLAG_DESTROYED = 0 ∧
       wsSample.StatusFlags &&& WSI_WINDOW_STATUS_FLAG_VISIBLE ≠ 0 ∧
       wsSample.BackBufferMemory ≠ none))
    ∧ (∀ bp, ((wsSample, some (PresentBackBuffer wsSample)) :
        WSI_WINDOW_STATE × Option BlitParams).2 = some bp →
        bp.dst_w = LogicalToPhysicalPixels wsSample.ClientSizeX wsSample.OutputDpiX ∧
        bp.dst_h = LogicalToPhysicalPixels wsSample.ClientSizeY wsSample.OutputDpiY ∧
        bp.src_w = wsSample.BackBufferWidth ∧ bp.src_h = wsSample.BackBufferHeight) :=
  (c3_presentation_loop wsSample oswSample [[]]).2.1
    (wsSample, some (PresentBackBuffer wsSample)) (by decide)
